import Mathlib

/-!
Accept button firmware (`src/main.cpp`)

A shallow embedding of the firmware of the single-button accept appliance.

* The two globals `lastButtonPress` and `wifiConnected` form the `State`.
* Every call the firmware makes to the outside world (display, serial port,
  WiFi stack, HTTP client, `delay`, `millis`, the button) is recorded, in
  program order, as an `Event` of a trace.  In addition every function of
  `main.cpp` records its own invocation as the first event of its body
  (`Event.call`), so that "is invoked" can be counted on traces.
* Values the outside world returns are inputs: the successive results of
  `WiFi.status()`, the button latch, the `millis()` reading, the HTTP status
  code and the strings that are only logged.
* `unsigned long` is 32 bits wide on the target; its arithmetic is written
  with explicit `% 2^32`.
-/

namespace AcceptButton

/-! ## Configuration and constants -/

/-- The four values that `credentials.h` supplies at compile time
(`WIFI_SSID`, `WIFI_PASSWORD`, `SERVER_HOST`, `SERVER_PORT`). The header is
not part of the sources, so the values are a parameter. -/
structure Config where
  wifi_ssid : String
  wifi_password : String
  server_host : String
  server_port : Int

/-- Source: `const int DEBOUNCE_MS = 1000;` (the debounce time). -/
def DEBOUNCE_MS : Nat := 1000

/-- Source: `COLOR_READY = 0x00FF00` (green). -/
def COLOR_READY : Nat := 0x00FF00
/-- Source: `COLOR_SENDING = 0x0000FF` (blue). -/
def COLOR_SENDING : Nat := 0x0000FF
/-- Source: `COLOR_SUCCESS = 0x00FFFF` (cyan). -/
def COLOR_SUCCESS : Nat := 0x00FFFF
/-- Source: `COLOR_ERROR = 0xFF0000` (red). -/
def COLOR_ERROR : Nat := 0xFF0000
/-- Source: `COLOR_WIFI_CONNECTING = 0xFFFF00` (yellow). -/
def COLOR_WIFI_CONNECTING : Nat := 0xFFFF00
/-- Source: `COLOR_OFF = 0x000000`. -/
def COLOR_OFF : Nat := 0x000000

/-- The display library's colour constant `BLACK` (RGB565). -/
def BLACK : Nat := 0x0000
/-- The display library's colour constant `WHITE` (RGB565). -/
def WHITE : Nat := 0xFFFF

/-- Width of `unsigned long` on the target: values live in `[0, 2^32)`. -/
def ULONG_MOD : Nat := 4294967296

/-- Subtraction of two `unsigned long` values, as C computes it. -/
def sub32 (a b : Nat) : Nat :=
  (a % ULONG_MOD + ULONG_MOD - b % ULONG_MOD) % ULONG_MOD

/-! ## State, events, inputs -/

/-- The mutable globals of `main.cpp`. -/
structure State where
  lastButtonPress : Nat
  wifiConnected : Bool
deriving DecidableEq, Repr

/-- The globals as initialised at boot:
`lastButtonPress = 0`, `wifiConnected = false`. -/
def boot : State :=
  { lastButtonPress := 0, wifiConnected := false }

/-- The functions defined in `main.cpp`, with the arguments they are called with. -/
inductive Fn where
  | setup
  | loop
  | connectWiFi
  | sendAccept
  | showStatus (text : String) (color : Nat)
  | showIP
deriving DecidableEq, Repr

/-- One observable step of the firmware. -/
inductive Event where
  /-- Entry into a function of `main.cpp`. -/
  | call (f : Fn)
  /-- Call of `M5.config()`. -/
  | m5Config
  /-- Call of `AtomS3.begin(cfg)`. -/
  | atomBegin
  /-- Call of `AtomS3.update()`. -/
  | atomUpdate
  /-- Call of `AtomS3.BtnA.wasPressed()` and what it returned -/
  | btnWasPressed (pressed : Bool)
  /-- Call of `millis()` and what it returned -/
  | millis (value : Nat)
  /-- Call of `delay(ms)`. -/
  | delay (ms : Nat)
  /-- Call of `AtomS3.Display.fillScreen(color)`. -/
  | fillScreen (color : Nat)
  /-- Call of `AtomS3.Display.fillRect(x, y, w, h, color)`. -/
  | fillRect (x y w h color : Nat)
  /-- Call of `AtomS3.Display.setTextSize(n)`. -/
  | setTextSize (n : Nat)
  /-- Call of `AtomS3.Display.setCursor(x, y)`. -/
  | setCursor (x y : Nat)
  /-- Call of `AtomS3.Display.setTextColor(color)`. -/
  | setTextColor (color : Nat)
  /-- Call of `AtomS3.Display.println(text)`. -/
  | displayPrintln (text : String)
  /-- Call of `AtomS3.Display.print(text)`. -/
  | displayPrint (text : String)
  /-- Call of `Serial.begin(baud)`. -/
  | serialBegin (baud : Nat)
  /-- Call of `Serial.print(text)`. -/
  | serialPrint (text : String)
  /-- Call of `Serial.println(text)`. -/
  | serialPrintln (text : String)
  /-- Call of `WiFi.mode(WIFI_STA)`. -/
  | wifiMode
  /-- Call of `WiFi.begin(ssid, password)`. -/
  | wifiBegin (ssid password : String)
  /-- Call of `WiFi.status()` and whether it returned `WL_CONNECTED` -/
  | wifiStatus (connected : Bool)
  /-- Call of `WiFi.localIP()`. -/
  | wifiLocalIP
  /-- Call of `http.begin(url)`. -/
  | httpBegin (url : String)
  /-- Call of `http.addHeader(name, value)`. -/
  | httpAddHeader (name value : String)
  /-- Call of `http.setTimeout(ms)`. -/
  | httpSetTimeout (ms : Nat)
  /-- Call of `http.POST(body)` and the code it returned -/
  | httpPOST (body : String) (code : Int)
  /-- Call of `http.getString()`. -/
  | httpGetString
  /-- Call of `http.errorToString(code)`. -/
  | httpErrorToString (code : Int)
  /-- Call of `http.end()`. -/
  | httpEnd
deriving DecidableEq, Repr

/-- What the HTTP client hands back to one `sendAccept()`: the value of
`http.POST("")`, the body of `http.getString()` and the text of
`http.errorToString(httpCode)`. -/
structure HttpReply where
  httpCode : Int
  response : String
  errorString : String

/-- Everything the outside world contributes to one tick of `loop()`:
`status n` tells whether the `n`-th call of `WiFi.status()` made during the
tick returns `WL_CONNECTED`; `wasPressed` is the button latch; `millis` is the
value `millis()` returns; `localIP` is the text of `WiFi.localIP()`. -/
structure TickInput where
  status : Nat → Bool
  wasPressed : Bool
  millis : Nat
  reply : HttpReply
  localIP : String

/-! ## The functions of `main.cpp` -/

/-- Source function `void showStatus(const char* text, uint32_t color)` (lines 158-169). -/
def showStatus (text : String) (color : Nat) : List Event :=
  [ Event.call (Fn.showStatus text color),
    Event.fillScreen BLACK,
    Event.fillRect 0 0 128 20 color,
    Event.setTextSize 2,
    Event.setCursor 10 50,
    Event.setTextColor WHITE,
    Event.displayPrintln text ]

/-- Source function `void showIP()` (lines 171-176). -/
def showIP (cfg : Config) : List Event :=
  [ Event.call Fn.showIP,
    Event.setTextSize 1,
    Event.setCursor 5 100,
    Event.displayPrint "-> ",
    Event.displayPrint cfg.server_host ]

/-- Result of the polling loop of `connectWiFi()`: how many calls of
`WiFi.status()` have been made so far, the final value of `attempts`, and the
events of the loop. -/
structure PollResult where
  reads : Nat
  attempts : Nat
  trace : List Event

/-- The loop `while (WiFi.status() != WL_CONNECTED && attempts < 30)`
(lines 91-95), entered with `reads` earlier status reads and the given value
of `attempts`. The status is read first at every test, also when
`attempts` has reached 30. -/
def pollLoop (status : Nat → Bool) (reads attempts : Nat) : PollResult :=
  if status reads = false ∧ attempts < 30 then
    let r := pollLoop status (reads + 1) (attempts + 1)
    { reads := r.reads
      attempts := r.attempts
      trace := Event.wifiStatus false :: Event.delay 500 :: Event.serialPrint "." :: r.trace }
  else
    { reads := reads + 1
      attempts := attempts
      trace := [Event.wifiStatus (status reads)] }
termination_by 30 - attempts

/-- Source function `void connectWiFi()` (lines 82-110). `status n` is the result of the
`n`-th `WiFi.status()` call made by this invocation. -/
def connectWiFi (cfg : Config) (status : Nat → Bool) (localIP : String) (st : State) :
    State × List Event :=
  let r := pollLoop status 0 0
  let head :=
    [Event.call Fn.connectWiFi] ++ showStatus "Connecting" COLOR_WIFI_CONNECTING ++
    [ Event.serialPrint "Connecting to WiFi: ",
      Event.serialPrintln cfg.wifi_ssid,
      Event.wifiMode,
      Event.wifiBegin cfg.wifi_ssid cfg.wifi_password ] ++ r.trace
  if status r.reads then
    ( { st with wifiConnected := true },
      head ++
      [ Event.wifiStatus true,
        Event.serialPrintln "\nWiFi Connected!",
        Event.serialPrint "IP: ",
        Event.wifiLocalIP,
        Event.serialPrintln localIP ] ++
      showStatus "Ready" COLOR_READY ++ showIP cfg )
  else
    ( st,
      head ++
      [ Event.wifiStatus false,
        Event.serialPrintln "\nWiFi Failed!" ] ++
      showStatus "WiFi Fail" COLOR_ERROR ++ [Event.delay 3000] )

/-- The success feedback `for (int i = 0; i < 2; i++)` (lines 135-140),
entered with the given value of `i`. -/
def blinkLoop (i : Nat) : List Event :=
  if i < 2 then
    [Event.delay 100, Event.fillScreen BLACK, Event.delay 100] ++
      showStatus "Accepted!" COLOR_SUCCESS ++ blinkLoop (i + 1)
  else []
termination_by 2 - i

/-- The request part of `sendAccept()` (lines 113-123): render "Sending",
build the URL, set header and timeout, POST the empty body. -/
def sendRequest (cfg : Config) (reply : HttpReply) : List Event :=
  [Event.call Fn.sendAccept] ++ showStatus "Sending" COLOR_SENDING ++
    [ Event.serialPrintln "Sending accept request...",
      Event.httpBegin
        ("http://" ++ cfg.server_host ++ ":" ++ toString cfg.server_port ++ "/accept"),
      Event.httpAddHeader "Content-Type" "application/json",
      Event.httpSetTimeout 5000,
      Event.httpPOST "" reply.httpCode ]

/-- The logging of a received response in `sendAccept()` (lines 126-130). -/
def sendResponseLog (reply : HttpReply) : List Event :=
  [ Event.httpGetString,
    Event.serialPrint "Response (",
    Event.serialPrint (toString reply.httpCode),
    Event.serialPrint "): ",
    Event.serialPrintln reply.response ]

/-- The branch on `httpCode` in `sendAccept()` (lines 125-148). -/
def sendOutcome (reply : HttpReply) : List Event :=
  if reply.httpCode > 0 then
    sendResponseLog reply ++
    (if reply.httpCode = 200 then
      showStatus "Accepted!" COLOR_SUCCESS ++ blinkLoop 0
    else
      showStatus "Error" COLOR_ERROR)
  else
    [ Event.serialPrint "HTTP Error: ",
      Event.httpErrorToString reply.httpCode,
      Event.serialPrintln reply.errorString ] ++
    showStatus "Failed" COLOR_ERROR

/-- The end of `sendAccept()` (lines 150-155): close the client, wait one
second, render "Ready" and the host. -/
def sendSettle (cfg : Config) : List Event :=
  [Event.httpEnd, Event.delay 1000] ++ showStatus "Ready" COLOR_READY ++ showIP cfg

/-- Source function `void sendAccept()` (lines 112-156). -/
def sendAccept (cfg : Config) (reply : HttpReply) (st : State) : State × List Event :=
  (st, sendRequest cfg reply ++ sendOutcome reply ++ sendSettle cfg)

/-- Source function `void setup()` (lines 43-56), run on the boot state. -/
def setup (cfg : Config) (status : Nat → Bool) (localIP : String) : State × List Event :=
  let r := connectWiFi cfg status localIP boot
  ( r.1,
    [ Event.call Fn.setup,
      Event.m5Config,
      Event.atomBegin,
      Event.setTextSize 2,
      Event.setTextColor WHITE,
      Event.serialBegin 115200,
      Event.serialPrintln "\n=== Claude Code Accept Button ===" ] ++ r.2 )

/-- Source function `void loop()` (lines 58-80): one tick. -/
def loop (cfg : Config) (inp : TickInput) (st : State) : State × List Event :=
  if inp.status 0 = false then
    let st1 : State := if st.wifiConnected then { st with wifiConnected := false } else st
    let lost : List Event :=
      if st.wifiConnected then showStatus "WiFi Lost" COLOR_ERROR else []
    let r := connectWiFi cfg (fun n => inp.status (n + 1)) inp.localIP st1
    ( r.1,
      [Event.call Fn.loop, Event.atomUpdate, Event.wifiStatus false] ++ lost ++ r.2 )
  else if inp.wasPressed then
    let now := inp.millis % ULONG_MOD
    if sub32 now st.lastButtonPress > DEBOUNCE_MS then
      let r := sendAccept cfg inp.reply { st with lastButtonPress := now }
      ( r.1,
        [ Event.call Fn.loop, Event.atomUpdate, Event.wifiStatus true,
          Event.btnWasPressed true, Event.serialPrintln "Button pressed",
          Event.millis now ] ++ r.2 )
    else
      ( st,
        [ Event.call Fn.loop, Event.atomUpdate, Event.wifiStatus true,
          Event.btnWasPressed true, Event.serialPrintln "Button pressed",
          Event.millis now ] )
  else
    ( st,
      [ Event.call Fn.loop, Event.atomUpdate, Event.wifiStatus true,
        Event.btnWasPressed false ] )

/-- The runtime calls `loop()` again and again: the ticks for a list of
inputs, from a given state, with the concatenated trace. -/
def runTicks (cfg : Config) : List TickInput → State → State × List Event
  | [], st => (st, [])
  | inp :: rest, st =>
    let r := loop cfg inp st
    let r2 := runTicks cfg rest r.1
    (r2.1, r.2 ++ r2.2)

/-! ## Observations on traces -/

/-- The `showStatus(text, color)` calls of a trace, in order. -/
def statusCalls : List Event → List (String × Nat)
  | [] => []
  | Event.call (Fn.showStatus text color) :: rest => (text, color) :: statusCalls rest
  | _ :: rest => statusCalls rest

/-- Whether an event is an operation on `AtomS3.Display`. -/
def Event.isDisplay : Event → Bool
  | Event.fillScreen _ => true
  | Event.fillRect _ _ _ _ _ => true
  | Event.setTextSize _ => true
  | Event.setCursor _ _ => true
  | Event.setTextColor _ => true
  | Event.displayPrintln _ => true
  | Event.displayPrint _ => true
  | _ => false

/-- Whether an event is a call of `http.POST`. -/
def Event.isPost : Event → Bool
  | Event.httpPOST _ _ => true
  | _ => false

/-- Whether an event is the entry into `sendAccept()`. -/
def Event.isSendAcceptCall : Event → Bool
  | Event.call Fn.sendAccept => true
  | _ => false

/-- Whether an event is the entry into `connectWiFi()`. -/
def Event.isConnectCall : Event → Bool
  | Event.call Fn.connectWiFi => true
  | _ => false

/-- Whether an event is `delay(ms)` for the given number of milliseconds. -/
def Event.isDelayOf (ms : Nat) : Event → Bool
  | Event.delay m => m == ms
  | _ => false

/-- Whether an event is the entry into `showStatus` with the given text. -/
def Event.isStatusCallOf (text : String) : Event → Bool
  | Event.call (Fn.showStatus t _) => t == text
  | _ => false

/-- Whether an event is a read of the button latch. -/
def Event.isButtonRead : Event → Bool
  | Event.btnWasPressed _ => true
  | _ => false

/-- Events that only the body of `loop()` or `sendAccept()` can produce:
the entry into `sendAccept()`, a read of the button, a POST, and the
`showStatus("WiFi Lost", ..)` call. -/
def Event.isTickOnly (e : Event) : Bool :=
  e.isSendAcceptCall || e.isButtonRead || e.isPost || e.isStatusCallOf "WiFi Lost"

/-- The display operations that draw one status: clear the screen to black,
paint a 128 x 20 bar of the given colour at the top, and print the text in
white, size 2, at (10, 50). Written out event by event; it does not refer to
`showStatus`. -/
def statusFrame (text : String) (color : Nat) : List Event :=
  [ Event.fillScreen 0x0000,
    Event.fillRect 0 0 128 20 color,
    Event.setTextSize 2,
    Event.setCursor 10 50,
    Event.setTextColor 0xFFFF,
    Event.displayPrintln text ]

/-- The display operations that draw the host line: size 1, at (5, 100), the
text "-> " followed by the host. Written out event by event; it does not
refer to `showIP`. -/
def hostFrame (host : String) : List Event :=
  [ Event.setTextSize 1,
    Event.setCursor 5 100,
    Event.displayPrint "-> ",
    Event.displayPrint host ]

/-- One blink cycle of the success feedback: wait 100 ms, clear the screen to
black, wait 100 ms, redraw "Accepted!" in cyan (a call of `showStatus` and
the drawing it makes). -/
def blinkCycle : List Event :=
  [ Event.delay 100, Event.fillScreen 0x0000, Event.delay 100,
    Event.call (Fn.showStatus "Accepted!" 0x00FFFF) ] ++ statusFrame "Accepted!" 0x00FFFF

/-- What the display shows, read off the display operations alone: every
line printed with `Display.println`, paired with the colour of the rectangle
painted last before it (`color` as long as none was painted). -/
def rendersWith (color : Nat) : List Event → List (String × Nat)
  | [] => []
  | Event.fillRect _ _ _ _ c :: rest => rendersWith c rest
  | Event.displayPrintln text :: rest => (text, color) :: rendersWith color rest
  | _ :: rest => rendersWith color rest

/-- The status lines a trace puts on the display, each with its bar colour. -/
def renders (tr : List Event) : List (String × Nat) :=
  rendersWith 0 tr

/-- The texts a trace writes with `Display.print`, in order. -/
def printedTexts : List Event → List String
  | [] => []
  | Event.displayPrint text :: rest => text :: printedTexts rest
  | _ :: rest => printedTexts rest

/-- The display operations of a trace, in order. -/
def displayOps (tr : List Event) : List Event :=
  tr.filter Event.isDisplay

/-! ## Auxiliary definitions for statements and concrete runs -/

/-- The events of `k` unsuccessful iterations of the polling loop. -/
def pollIterations : Nat → List Event
  | 0 => []
  | k + 1 =>
    Event.wifiStatus false :: Event.delay 500 :: Event.serialPrint "." :: pollIterations k

/-- The events of `connectWiFi()` up to and including the polling loop. -/
def connectHead (cfg : Config) (status : Nat → Bool) : List Event :=
  [Event.call Fn.connectWiFi] ++ showStatus "Connecting" COLOR_WIFI_CONNECTING ++
    [ Event.serialPrint "Connecting to WiFi: ",
      Event.serialPrintln cfg.wifi_ssid,
      Event.wifiMode,
      Event.wifiBegin cfg.wifi_ssid cfg.wifi_password ] ++ (pollLoop status 0 0).trace

/-- A configuration used for concrete runs. -/
def exampleConfig : Config :=
  { wifi_ssid := "lab", wifi_password := "secret", server_host := "192.168.0.10",
    server_port := 8080 }

/-- Status readings that are "connected" at the first read only. -/
def statusOnlyFirst : Nat → Bool := fun n => decide (n = 0)

/-- Status readings that are "connected" from the fourth read on. -/
def statusFromThree : Nat → Bool := fun n => decide (3 ≤ n)

/-- A reply with status 200. -/
def replyOk : HttpReply :=
  { httpCode := 200, response := "ok", errorString := "" }

/-- A reply with status 500. -/
def replyServerError : HttpReply :=
  { httpCode := 500, response := "internal error", errorString := "" }

/-- A failed exchange: the client returns the negative code -1. -/
def replyRefused : HttpReply :=
  { httpCode := -1, response := "", errorString := "connection refused" }

/-- A tick on a connected link on which the button was pressed, with
`millis()` returning `t`. -/
def pressAt (t : Nat) : TickInput :=
  { status := fun _ => true, wasPressed := true, millis := t, reply := replyOk,
    localIP := "10.0.0.7" }

/-- A tick on which the link reads disconnected at every status read. -/
def linkDown : TickInput :=
  { status := fun _ => false, wasPressed := true, millis := 7000, reply := replyOk,
    localIP := "" }

/-- A tick on a connected link without a press. -/
def idleAt (t : Nat) : TickInput :=
  { status := fun _ => true, wasPressed := false, millis := t, reply := replyOk,
    localIP := "10.0.0.7" }

/-! ## Basic facts about the embedding -/

theorem sub32_of_le (a b : Nat) (hab : b ≤ a) (ha : a < 4294967296) :
    sub32 a b = a - b := by
  unfold sub32 ULONG_MOD
  omega

theorem sendAccept_state (cfg : Config) (reply : HttpReply) (st : State) :
    (sendAccept cfg reply st).1 = st := by
  simp [sendAccept]

theorem blinkLoop_zero : blinkLoop 0 = blinkCycle ++ blinkCycle := by
  rw [blinkLoop, if_pos (by decide), blinkLoop, if_pos (by decide), blinkLoop,
    if_neg (by decide)]
  simp [blinkCycle, statusFrame, showStatus, COLOR_SUCCESS, BLACK, WHITE]

theorem loop_accept (cfg : Config) (inp : TickInput) (st : State)
    (hc : inp.status 0 = true) (hp : inp.wasPressed = true)
    (hd : 1000 < sub32 (inp.millis % 4294967296) st.lastButtonPress) :
    loop cfg inp st =
      ( { st with lastButtonPress := inp.millis % 4294967296 },
        [ Event.call Fn.loop, Event.atomUpdate, Event.wifiStatus true,
          Event.btnWasPressed true, Event.serialPrintln "Button pressed",
          Event.millis (inp.millis % 4294967296) ] ++
        (sendAccept cfg inp.reply
          { st with lastButtonPress := inp.millis % 4294967296 }).2 ) := by
  simp [loop, hc, hp, ULONG_MOD, DEBOUNCE_MS, hd, sendAccept_state]

theorem loop_reject (cfg : Config) (inp : TickInput) (st : State)
    (hc : inp.status 0 = true) (hp : inp.wasPressed = true)
    (hd : sub32 (inp.millis % 4294967296) st.lastButtonPress ≤ 1000) :
    loop cfg inp st =
      ( st,
        [ Event.call Fn.loop, Event.atomUpdate, Event.wifiStatus true,
          Event.btnWasPressed true, Event.serialPrintln "Button pressed",
          Event.millis (inp.millis % 4294967296) ] ) := by
  have hd2 : ¬ 1000 < sub32 (inp.millis % 4294967296) st.lastButtonPress := by omega
  simp [loop, hc, hp, ULONG_MOD, DEBOUNCE_MS, hd2]

theorem loop_idle (cfg : Config) (inp : TickInput) (st : State)
    (hc : inp.status 0 = true) (hp : inp.wasPressed = false) :
    loop cfg inp st =
      ( st,
        [ Event.call Fn.loop, Event.atomUpdate, Event.wifiStatus true,
          Event.btnWasPressed false ] ) := by
  simp [loop, hc, hp]

theorem call_sendAccept_mem_sendAccept (cfg : Config) (reply : HttpReply) (st : State) :
    Event.call Fn.sendAccept ∈ (sendAccept cfg reply st).2 := by
  simp [sendAccept, sendRequest]

theorem sendOutcome_ok (reply : HttpReply) (h : reply.httpCode = 200) :
    sendOutcome reply =
      sendResponseLog reply ++ showStatus "Accepted!" COLOR_SUCCESS ++
        (blinkCycle ++ blinkCycle) := by
  simp [sendOutcome, h, blinkLoop_zero]

theorem sendOutcome_httpError (reply : HttpReply) (h : 0 < reply.httpCode)
    (h2 : reply.httpCode ≠ 200) :
    sendOutcome reply = sendResponseLog reply ++ showStatus "Error" COLOR_ERROR := by
  simp [sendOutcome, h, h2]

theorem sendOutcome_transportError (reply : HttpReply) (h : reply.httpCode ≤ 0) :
    sendOutcome reply =
      [ Event.serialPrint "HTTP Error: ",
        Event.httpErrorToString reply.httpCode,
        Event.serialPrintln reply.errorString ] ++
      showStatus "Failed" COLOR_ERROR := by
  have : ¬ 0 < reply.httpCode := by omega
  simp [sendOutcome, this]

/-- The three ways `sendOutcome` can go, by the value of `httpCode`. -/
theorem sendOutcome_cases (reply : HttpReply) :
    (reply.httpCode = 200 ∧ sendOutcome reply =
        sendResponseLog reply ++ showStatus "Accepted!" COLOR_SUCCESS ++
          (blinkCycle ++ blinkCycle)) ∨
    ((0 < reply.httpCode ∧ reply.httpCode ≠ 200) ∧ sendOutcome reply =
        sendResponseLog reply ++ showStatus "Error" COLOR_ERROR) ∨
    (reply.httpCode ≤ 0 ∧ sendOutcome reply =
        [ Event.serialPrint "HTTP Error: ",
          Event.httpErrorToString reply.httpCode,
          Event.serialPrintln reply.errorString ] ++
        showStatus "Failed" COLOR_ERROR) := by
  by_cases h : reply.httpCode = 200
  · exact Or.inl ⟨h, sendOutcome_ok reply h⟩
  · by_cases h0 : 0 < reply.httpCode
    · exact Or.inr (Or.inl ⟨⟨h0, h⟩, sendOutcome_httpError reply h0 h⟩)
    · exact Or.inr (Or.inr ⟨by omega, sendOutcome_transportError reply (by omega)⟩)

theorem countP_call_sendAccept (cfg : Config) (reply : HttpReply) (st : State) :
    (sendAccept cfg reply st).2.countP Event.isSendAcceptCall = 1 := by
  simp only [sendAccept]
  rcases sendOutcome_cases reply with ⟨_, h⟩ | ⟨_, h⟩ | ⟨_, h⟩ <;> rw [h] <;>
    simp [sendRequest, sendResponseLog, sendSettle, showStatus, showIP, blinkCycle, statusFrame,
      List.countP_cons, Event.isSendAcceptCall]

/-! ## The polling loop -/

theorem pollLoop_stop_connected (status : Nat → Bool) (reads attempts : Nat)
    (h : status reads = true) :
    pollLoop status reads attempts =
      { reads := reads + 1, attempts := attempts, trace := [Event.wifiStatus true] } := by
  rw [pollLoop]
  simp [h]

theorem pollLoop_stop_ceiling (status : Nat → Bool) (reads attempts : Nat)
    (h : 30 ≤ attempts) :
    pollLoop status reads attempts =
      { reads := reads + 1, attempts := attempts,
        trace := [Event.wifiStatus (status reads)] } := by
  rw [pollLoop]
  have : ¬ attempts < 30 := by omega
  simp [this]

theorem pollLoop_step (status : Nat → Bool) (reads attempts : Nat)
    (h : status reads = false) (ha : attempts < 30) :
    pollLoop status reads attempts =
      { reads := (pollLoop status (reads + 1) (attempts + 1)).reads,
        attempts := (pollLoop status (reads + 1) (attempts + 1)).attempts,
        trace := Event.wifiStatus false :: Event.delay 500 :: Event.serialPrint "." ::
          (pollLoop status (reads + 1) (attempts + 1)).trace } := by
  rw [pollLoop]
  simp [h, ha]

theorem pollLoop_iterate (status : Nat → Bool) :
    ∀ (k reads attempts : Nat), attempts + k ≤ 30 →
      (∀ i, i < k → status (reads + i) = false) →
      pollLoop status reads attempts =
        { reads := (pollLoop status (reads + k) (attempts + k)).reads,
          attempts := (pollLoop status (reads + k) (attempts + k)).attempts,
          trace := pollIterations k ++ (pollLoop status (reads + k) (attempts + k)).trace }
  | 0, reads, attempts, _, _ => by simp [pollIterations]
  | k + 1, reads, attempts, hk, hs => by
    have h0 : status reads = false := by simpa using hs 0 (Nat.succ_pos k)
    have ih := pollLoop_iterate status k (reads + 1) (attempts + 1) (by omega)
      (fun i hi => by
        have := hs (i + 1) (by omega)
        rwa [show reads + 1 + i = reads + (i + 1) by omega])
    rw [pollLoop_step status reads attempts h0 (by omega), ih]
    simp [pollIterations, show reads + 1 + k = reads + (k + 1) by omega,
      show attempts + 1 + k = attempts + (k + 1) by omega]

theorem countP_delay_pollIterations (k : Nat) :
    (pollIterations k).countP (Event.isDelayOf 500) = k := by
  induction k with
  | zero => simp [pollIterations]
  | succ k ih => simp [pollIterations, List.countP_cons, Event.isDelayOf, ih]

/-- Whatever the status readings, the polling loop stops with `attempts` at
most 30 (when entered below 30) and has waited once per increment. -/
theorem pollLoop_bound (status : Nat → Bool) :
    ∀ (n reads attempts : Nat), 30 - attempts = n →
      attempts ≤ (pollLoop status reads attempts).attempts ∧
      (pollLoop status reads attempts).attempts ≤ max attempts 30 ∧
      (pollLoop status reads attempts).trace.countP (Event.isDelayOf 500) =
        (pollLoop status reads attempts).attempts - attempts ∧
      (pollLoop status reads attempts).reads =
        reads + ((pollLoop status reads attempts).attempts - attempts) + 1
  | 0, reads, attempts, hn => by
    rw [pollLoop_stop_ceiling status reads attempts (by omega)]
    simp [List.countP_cons, Event.isDelayOf]
  | n + 1, reads, attempts, hn => by
    cases h : status reads with
    | true =>
      rw [pollLoop_stop_connected status reads attempts h]
      simp [List.countP_cons, Event.isDelayOf]
    | false =>
      have ih := pollLoop_bound status n (reads + 1) (attempts + 1) (by omega)
      rw [pollLoop_step status reads attempts h (by omega)]
      obtain ⟨h1, h2, h3, h4⟩ := ih
      refine ⟨by simp only; omega, by simp only; omega, ?_, by simp only; omega⟩
      simp only [List.countP_cons, Event.isDelayOf, h3]
      simp
      omega

theorem pollLoop_trace_mem (status : Nat → Bool) :
    ∀ (n reads attempts : Nat), 30 - attempts = n →
      ∀ e ∈ (pollLoop status reads attempts).trace,
        (∃ b, e = Event.wifiStatus b) ∨ e = Event.delay 500 ∨ e = Event.serialPrint "."
  | 0, reads, attempts, hn => by
    rw [pollLoop_stop_ceiling status reads attempts (by omega)]
    simp
  | n + 1, reads, attempts, hn => by
    cases h : status reads with
    | true =>
      rw [pollLoop_stop_connected status reads attempts h]
      simp
    | false =>
      have ih := pollLoop_trace_mem status n (reads + 1) (attempts + 1) (by omega)
      rw [pollLoop_step status reads attempts h (by omega)]
      intro e he
      simp only [List.mem_cons] at he
      rcases he with rfl | rfl | rfl | he
      · exact Or.inl ⟨false, rfl⟩
      · exact Or.inr (Or.inl rfl)
      · exact Or.inr (Or.inr rfl)
      · exact ih e he

/-! ## `connectWiFi()` -/

theorem connectWiFi_of_final_connected (cfg : Config) (status : Nat → Bool)
    (localIP : String) (st : State)
    (h : status (pollLoop status 0 0).reads = true) :
    connectWiFi cfg status localIP st =
      ( { st with wifiConnected := true },
        connectHead cfg status ++
        [ Event.wifiStatus true,
          Event.serialPrintln "\nWiFi Connected!",
          Event.serialPrint "IP: ",
          Event.wifiLocalIP,
          Event.serialPrintln localIP ] ++
        showStatus "Ready" COLOR_READY ++ showIP cfg ) := by
  simp [connectWiFi, connectHead, h]

theorem connectWiFi_of_final_disconnected (cfg : Config) (status : Nat → Bool)
    (localIP : String) (st : State)
    (h : status (pollLoop status 0 0).reads = false) :
    connectWiFi cfg status localIP st =
      ( st,
        connectHead cfg status ++
        [ Event.wifiStatus false,
          Event.serialPrintln "\nWiFi Failed!" ] ++
        showStatus "WiFi Fail" COLOR_ERROR ++ [Event.delay 3000] ) := by
  simp [connectWiFi, connectHead, h]

theorem connectWiFi_lastButtonPress (cfg : Config) (status : Nat → Bool)
    (localIP : String) (st : State) :
    (connectWiFi cfg status localIP st).1.lastButtonPress = st.lastButtonPress := by
  cases h : status (pollLoop status 0 0).reads with
  | true => rw [connectWiFi_of_final_connected cfg status localIP st h]
  | false => rw [connectWiFi_of_final_disconnected cfg status localIP st h]

theorem pollLoop_trace_quiet (status : Nat → Bool) :
    ∀ (n reads attempts : Nat), 30 - attempts = n →
      (pollLoop status reads attempts).trace.all (fun e => !e.isTickOnly) = true
  | 0, reads, attempts, hn => by
    rw [pollLoop_stop_ceiling status reads attempts (by omega)]
    simp [Event.isTickOnly, Event.isSendAcceptCall, Event.isButtonRead, Event.isPost,
      Event.isStatusCallOf]
  | n + 1, reads, attempts, hn => by
    cases h : status reads with
    | true =>
      rw [pollLoop_stop_connected status reads attempts h]
      simp [Event.isTickOnly, Event.isSendAcceptCall, Event.isButtonRead, Event.isPost,
        Event.isStatusCallOf]
    | false =>
      have ih := pollLoop_trace_quiet status n (reads + 1) (attempts + 1) (by omega)
      rw [pollLoop_step status reads attempts h (by omega)]
      simp only [List.all_cons, ih]
      simp [Event.isTickOnly, Event.isSendAcceptCall, Event.isButtonRead, Event.isPost,
        Event.isStatusCallOf]

/-- No event of `connectWiFi()` is an entry into `sendAccept()`, a read of the
button, a POST, or a `showStatus("WiFi Lost", ..)`. -/
theorem connectWiFi_trace_quiet (cfg : Config) (status : Nat → Bool)
    (localIP : String) (st : State) :
    (connectWiFi cfg status localIP st).2.all (fun e => !e.isTickOnly) = true := by
  have hpoll := pollLoop_trace_quiet status 30 0 0 rfl
  cases h : status (pollLoop status 0 0).reads with
  | true =>
    rw [connectWiFi_of_final_connected cfg status localIP st h]
    simp only [connectHead, List.all_append, hpoll]
    simp [showStatus, showIP, Event.isTickOnly, Event.isSendAcceptCall,
      Event.isButtonRead, Event.isPost, Event.isStatusCallOf]
  | false =>
    rw [connectWiFi_of_final_disconnected cfg status localIP st h]
    simp only [connectHead, List.all_append, hpoll]
    simp [showStatus, Event.isTickOnly, Event.isSendAcceptCall,
      Event.isButtonRead, Event.isPost, Event.isStatusCallOf]

theorem connectWiFi_trace_free (cfg : Config) (status : Nat → Bool)
    (localIP : String) (st : State) (e : Event)
    (he : e ∈ (connectWiFi cfg status localIP st).2) :
    e.isTickOnly = false := by
  have h := connectWiFi_trace_quiet cfg status localIP st
  rw [List.all_eq_true] at h
  simpa using h e he

theorem statusCalls_append (l₁ l₂ : List Event) :
    statusCalls (l₁ ++ l₂) = statusCalls l₁ ++ statusCalls l₂ := by
  induction l₁ with
  | nil => simp [statusCalls]
  | cons e l ih =>
    cases e with
    | call f => cases f <;> simp [statusCalls, ih]
    | _ => simp [statusCalls, ih]

theorem statusCalls_showStatus (text : String) (color : Nat) :
    statusCalls (showStatus text color) = [(text, color)] := by
  simp [showStatus, statusCalls]

theorem statusCalls_showIP (cfg : Config) : statusCalls (showIP cfg) = [] := by
  simp [showIP, statusCalls]

theorem statusCalls_pollLoop (status : Nat → Bool) :
    ∀ (n reads attempts : Nat), 30 - attempts = n →
      statusCalls (pollLoop status reads attempts).trace = []
  | 0, reads, attempts, hn => by
    rw [pollLoop_stop_ceiling status reads attempts (by omega)]
    simp [statusCalls]
  | n + 1, reads, attempts, hn => by
    cases h : status reads with
    | true =>
      rw [pollLoop_stop_connected status reads attempts h]
      simp [statusCalls]
    | false =>
      rw [pollLoop_step status reads attempts h (by omega)]
      simp [statusCalls, statusCalls_pollLoop status n (reads + 1) (attempts + 1) (by omega)]

theorem countP_connectCall_pollLoop (status : Nat → Bool) (reads attempts : Nat) :
    (pollLoop status reads attempts).trace.countP Event.isConnectCall = 0 := by
  rw [List.countP_eq_zero]
  intro e he
  rcases pollLoop_trace_mem status (30 - attempts) reads attempts rfl e he with
    ⟨b, h⟩ | h | h <;> subst h <;> simp [Event.isConnectCall]

theorem countP_connectCall_connectWiFi (cfg : Config) (status : Nat → Bool)
    (localIP : String) (st : State) :
    (connectWiFi cfg status localIP st).2.countP Event.isConnectCall = 1 := by
  cases h : status (pollLoop status 0 0).reads with
  | true =>
    rw [connectWiFi_of_final_connected cfg status localIP st h]
    simp [connectHead, showStatus, showIP, List.countP_cons, Event.isConnectCall,
      countP_connectCall_pollLoop]
  | false =>
    rw [connectWiFi_of_final_disconnected cfg status localIP st h]
    simp [connectHead, showStatus, List.countP_cons, Event.isConnectCall,
      countP_connectCall_pollLoop]

theorem countP_delay_connectWiFi (cfg : Config) (status : Nat → Bool)
    (localIP : String) (st : State) :
    (connectWiFi cfg status localIP st).2.countP (Event.isDelayOf 500) =
      (pollLoop status 0 0).attempts := by
  have hb := (pollLoop_bound status 30 0 0 rfl).2.2.1
  cases h : status (pollLoop status 0 0).reads with
  | true =>
    rw [connectWiFi_of_final_connected cfg status localIP st h]
    simp [connectHead, showStatus, showIP, List.countP_cons, Event.isDelayOf, hb]
  | false =>
    rw [connectWiFi_of_final_disconnected cfg status localIP st h]
    simp [connectHead, showStatus, List.countP_cons, Event.isDelayOf, hb]

theorem statusCalls_connectHead (cfg : Config) (status : Nat → Bool) :
    statusCalls (connectHead cfg status) = [("Connecting", COLOR_WIFI_CONNECTING)] := by
  simp [connectHead, statusCalls_append, statusCalls_showStatus,
    statusCalls_pollLoop status 30 0 0 rfl, statusCalls]

/-- The polling loop when the first `k` readings are all "not connected" and
reading `k` is "connected", for `k ≤ 30`. -/
theorem pollLoop_first_connected (status : Nat → Bool) (k : Nat) (hk : k ≤ 30)
    (hfalse : ∀ i, i < k → status i = false) (htrue : status k = true) :
    pollLoop status 0 0 =
      { reads := k + 1, attempts := k,
        trace := pollIterations k ++ [Event.wifiStatus true] } := by
  rw [pollLoop_iterate status k 0 0 (by omega) (fun i hi => by simpa using hfalse i hi)]
  simp only [Nat.zero_add]
  rw [pollLoop_stop_connected status k k htrue]

/-- The polling loop when the first 31 readings are all "not connected". -/
theorem pollLoop_never_connected (status : Nat → Bool)
    (hfalse : ∀ i, i ≤ 30 → status i = false) :
    pollLoop status 0 0 =
      { reads := 31, attempts := 30,
        trace := pollIterations 30 ++ [Event.wifiStatus false] } := by
  rw [pollLoop_iterate status 30 0 0 (by omega)
    (fun i hi => by simpa using hfalse i (by omega))]
  simp only [Nat.zero_add]
  rw [pollLoop_stop_ceiling status 30 30 (le_refl _), hfalse 30 (le_refl _)]

/-! ## What the display shows -/

theorem showStatus_eq (text : String) (color : Nat) :
    showStatus text color =
      Event.call (Fn.showStatus text color) :: statusFrame text color := by
  simp [showStatus, statusFrame, BLACK, WHITE]

theorem showIP_eq (cfg : Config) :
    showIP cfg = Event.call Fn.showIP :: hostFrame cfg.server_host := by
  simp [showIP, hostFrame]

theorem rendersWith_pollLoop_append (status : Nat → Bool) :
    ∀ (n reads attempts : Nat), 30 - attempts = n → ∀ (c : Nat) (rest : List Event),
      rendersWith c ((pollLoop status reads attempts).trace ++ rest) = rendersWith c rest
  | 0, reads, attempts, hn => by
    intro c rest
    rw [pollLoop_stop_ceiling status reads attempts (by omega)]
    simp [rendersWith]
  | n + 1, reads, attempts, hn => by
    intro c rest
    cases h : status reads with
    | true =>
      rw [pollLoop_stop_connected status reads attempts h]
      simp [rendersWith]
    | false =>
      rw [pollLoop_step status reads attempts h (by omega)]
      simp [rendersWith,
        rendersWith_pollLoop_append status n (reads + 1) (attempts + 1) (by omega)]

theorem printedTexts_pollLoop_append (status : Nat → Bool) :
    ∀ (n reads attempts : Nat), 30 - attempts = n → ∀ (rest : List Event),
      printedTexts ((pollLoop status reads attempts).trace ++ rest) = printedTexts rest
  | 0, reads, attempts, hn => by
    intro rest
    rw [pollLoop_stop_ceiling status reads attempts (by omega)]
    simp [printedTexts]
  | n + 1, reads, attempts, hn => by
    intro rest
    cases h : status reads with
    | true =>
      rw [pollLoop_stop_connected status reads attempts h]
      simp [printedTexts]
    | false =>
      rw [pollLoop_step status reads attempts h (by omega)]
      simp [printedTexts,
        printedTexts_pollLoop_append status n (reads + 1) (attempts + 1) (by omega)]

/-- What `connectWiFi()` puts on the display, by the status read after the
loop: "Connecting" on yellow, then "Ready" on green or "WiFi Fail" on red. -/
theorem rendersWith_connectWiFi (cfg : Config) (status : Nat → Bool)
    (localIP : String) (st : State) (c : Nat) :
    rendersWith c (connectWiFi cfg status localIP st).2 =
      if status (pollLoop status 0 0).reads = true then
        [("Connecting", 0xFFFF00), ("Ready", 0x00FF00)]
      else
        [("Connecting", 0xFFFF00), ("WiFi Fail", 0xFF0000)] := by
  have hp := rendersWith_pollLoop_append status 30 0 0 rfl
  cases h : status (pollLoop status 0 0).reads with
  | true =>
    rw [connectWiFi_of_final_connected cfg status localIP st h]
    simp [connectHead, showStatus, showIP, rendersWith, hp, COLOR_WIFI_CONNECTING,
      COLOR_READY]
  | false =>
    rw [connectWiFi_of_final_disconnected cfg status localIP st h]
    simp [connectHead, showStatus, rendersWith, hp, COLOR_WIFI_CONNECTING, COLOR_ERROR]

/-- What `connectWiFi()` writes with `Display.print`: the host line when the
status read after the loop is connected, nothing otherwise. -/
theorem printedTexts_connectWiFi (cfg : Config) (status : Nat → Bool)
    (localIP : String) (st : State) :
    printedTexts (connectWiFi cfg status localIP st).2 =
      if status (pollLoop status 0 0).reads = true then ["-> ", cfg.server_host]
      else [] := by
  have hp := printedTexts_pollLoop_append status 30 0 0 rfl
  cases h : status (pollLoop status 0 0).reads with
  | true =>
    rw [connectWiFi_of_final_connected cfg status localIP st h]
    simp [connectHead, showStatus, showIP, printedTexts, hp]
  | false =>
    rw [connectWiFi_of_final_disconnected cfg status localIP st h]
    simp [connectHead, showStatus, printedTexts, hp]

/-- A line printed with `println` shows up among the renders of a trace. -/
theorem exists_render_of_println_mem (text : String) :
    ∀ (l : List Event) (c : Nat), Event.displayPrintln text ∈ l →
      ∃ c2, (text, c2) ∈ rendersWith c l
  | [], _, hmem => by simp at hmem
  | e :: l, c, hmem => by
    by_cases he : e = Event.displayPrintln text
    · subst he
      exact ⟨c, by simp [rendersWith]⟩
    · have hl : Event.displayPrintln text ∈ l := by
        rcases List.mem_cons.1 hmem with h1 | h1
        · exact absurd h1.symm he
        · exact h1
      cases e with
      | fillRect x y w hh c3 =>
        obtain ⟨c2, h2⟩ := exists_render_of_println_mem text l c3 hl
        exact ⟨c2, by simpa [rendersWith] using h2⟩
      | displayPrintln t =>
        obtain ⟨c2, h2⟩ := exists_render_of_println_mem text l c hl
        exact ⟨c2, by simp [rendersWith, h2]⟩
      | _ =>
        obtain ⟨c2, h2⟩ := exists_render_of_println_mem text l c hl
        exact ⟨c2, by simpa [rendersWith] using h2⟩

/-- The line "WiFi Lost" is never printed by `connectWiFi()`. -/
theorem println_mem_connectWiFi (cfg : Config) (status : Nat → Bool)
    (localIP : String) (st : State) :
    Event.displayPrintln "WiFi Lost" ∉ (connectWiFi cfg status localIP st).2 := by
  intro he
  obtain ⟨c2, h⟩ := exists_render_of_println_mem "WiFi Lost" _ 0 he
  rw [rendersWith_connectWiFi cfg status localIP st 0] at h
  split_ifs at h <;> simp at h

theorem renders_sendAccept_ok (cfg : Config) (reply : HttpReply) (st : State)
    (h : reply.httpCode = 200) :
    renders (sendAccept cfg reply st).2 =
      [ ("Sending", 0x0000FF), ("Accepted!", 0x00FFFF), ("Accepted!", 0x00FFFF),
        ("Accepted!", 0x00FFFF), ("Ready", 0x00FF00) ] := by
  simp [sendAccept, sendOutcome_ok reply h, sendRequest, sendResponseLog, sendSettle,
    blinkCycle, statusFrame, showStatus, showIP, renders, rendersWith, COLOR_SENDING,
    COLOR_SUCCESS, COLOR_READY]

theorem displayOps_sendAccept_ok (cfg : Config) (reply : HttpReply) (st : State)
    (h : reply.httpCode = 200) :
    displayOps (sendAccept cfg reply st).2 =
      statusFrame "Sending" 0x0000FF ++ statusFrame "Accepted!" 0x00FFFF ++
        [Event.fillScreen 0x0000] ++ statusFrame "Accepted!" 0x00FFFF ++
        [Event.fillScreen 0x0000] ++ statusFrame "Accepted!" 0x00FFFF ++
        statusFrame "Ready" 0x00FF00 ++ hostFrame cfg.server_host := by
  simp [sendAccept, sendOutcome_ok reply h, sendRequest, sendResponseLog, sendSettle,
    blinkCycle, statusFrame, hostFrame, showStatus, showIP, displayOps,
    Event.isDisplay, COLOR_SENDING, COLOR_SUCCESS, COLOR_READY, BLACK, WHITE]

theorem renders_sendAccept_httpError (cfg : Config) (reply : HttpReply) (st : State)
    (h : 0 < reply.httpCode) (h2 : reply.httpCode ≠ 200) :
    renders (sendAccept cfg reply st).2 =
      [("Sending", 0x0000FF), ("Error", 0xFF0000), ("Ready", 0x00FF00)] := by
  simp [sendAccept, sendOutcome_httpError reply h h2, sendRequest, sendResponseLog,
    sendSettle, showStatus, showIP, renders, rendersWith, COLOR_SENDING, COLOR_ERROR,
    COLOR_READY]

theorem renders_sendAccept_transportError (cfg : Config) (reply : HttpReply) (st : State)
    (h : reply.httpCode ≤ 0) :
    renders (sendAccept cfg reply st).2 =
      [("Sending", 0x0000FF), ("Failed", 0xFF0000), ("Ready", 0x00FF00)] := by
  simp [sendAccept, sendOutcome_transportError reply h, sendRequest, sendSettle,
    showStatus, showIP, renders, rendersWith, COLOR_SENDING, COLOR_ERROR, COLOR_READY]

/-! ## Claims -/

/-- C7 (as amended): for every sequence of link-status readings, `connectWiFi()`
first renders "Connecting" on a yellow bar and performs at most 30 delays of
500 ms in its polling loop (at most 15000 ms in total). If no read of the
status made by the call (the 31 loop tests and the test after the loop) is
connected, it performs 30 delays, renders "WiFi Fail" on a red bar, leaves the
state unchanged and ends with a 3000 ms pause. If the status reads connected
for the first time at the loop test after `k ≤ 30` delays and still reads
connected at the test after the loop, it performs exactly `k` delays, sets
`wifiConnected = true` and ends by rendering "Ready" on a green bar followed
by the host line. In every case the outcome is decided by the status read made
after the loop: connected gives "Ready" and `wifiConnected = true`, not
connected gives "WiFi Fail" and an unchanged state. The renders are stated on
the display operations themselves (bar colour of `fillRect`, text of
`println` and `print`). -/
theorem C7_connectWiFi_bounded_polling (cfg : Config) (status : Nat → Bool)
    (localIP : String) (st : State) :
    ([Event.call Fn.connectWiFi, Event.call (Fn.showStatus "Connecting" 0xFFFF00)] ++
        statusFrame "Connecting" 0xFFFF00 <+: (connectWiFi cfg status localIP st).2) ∧
    (renders (connectWiFi cfg status localIP st).2).head? = some ("Connecting", 0xFFFF00) ∧
    (connectWiFi cfg status localIP st).2.countP (Event.isDelayOf 500) ≤ 30 ∧
    500 * (connectWiFi cfg status localIP st).2.countP (Event.isDelayOf 500) ≤ 15000 ∧
    ((∀ i, i ≤ 31 → status i = false) →
      (connectWiFi cfg status localIP st).1 = st ∧
      (connectWiFi cfg status localIP st).2.countP (Event.isDelayOf 500) = 30 ∧
      renders (connectWiFi cfg status localIP st).2 =
        [("Connecting", 0xFFFF00), ("WiFi Fail", 0xFF0000)] ∧
      printedTexts (connectWiFi cfg status localIP st).2 = [] ∧
      statusCalls (connectWiFi cfg status localIP st).2 =
        [("Connecting", 0xFFFF00), ("WiFi Fail", 0xFF0000)] ∧
      ([Event.call (Fn.showStatus "WiFi Fail" 0xFF0000)] ++
          statusFrame "WiFi Fail" 0xFF0000 ++ [Event.delay 3000] <:+
        (connectWiFi cfg status localIP st).2)) ∧
    (∀ k, k ≤ 30 → (∀ i, i < k → status i = false) → status k = true →
      status (k + 1) = true →
      (connectWiFi cfg status localIP st).1 = { st with wifiConnected := true } ∧
      (connectWiFi cfg status localIP st).2.countP (Event.isDelayOf 500) = k ∧
      renders (connectWiFi cfg status localIP st).2 =
        [("Connecting", 0xFFFF00), ("Ready", 0x00FF00)] ∧
      printedTexts (connectWiFi cfg status localIP st).2 = ["-> ", cfg.server_host] ∧
      statusCalls (connectWiFi cfg status localIP st).2 =
        [("Connecting", 0xFFFF00), ("Ready", 0x00FF00)] ∧
      ([Event.call (Fn.showStatus "Ready" 0x00FF00)] ++ statusFrame "Ready" 0x00FF00 ++
          [Event.call Fn.showIP] ++ hostFrame cfg.server_host <:+
        (connectWiFi cfg status localIP st).2)) ∧
    (status ((connectWiFi cfg status localIP st).2.countP (Event.isDelayOf 500) + 1) = true →
      (connectWiFi cfg status localIP st).1 = { st with wifiConnected := true } ∧
      renders (connectWiFi cfg status localIP st).2 =
        [("Connecting", 0xFFFF00), ("Ready", 0x00FF00)] ∧
      printedTexts (connectWiFi cfg status localIP st).2 = ["-> ", cfg.server_host] ∧
      statusCalls (connectWiFi cfg status localIP st).2 =
        [("Connecting", 0xFFFF00), ("Ready", 0x00FF00)]) ∧
    (status ((connectWiFi cfg status localIP st).2.countP (Event.isDelayOf 500) + 1) = false →
      (connectWiFi cfg status localIP st).1 = st ∧
      renders (connectWiFi cfg status localIP st).2 =
        [("Connecting", 0xFFFF00), ("WiFi Fail", 0xFF0000)] ∧
      printedTexts (connectWiFi cfg status localIP st).2 = [] ∧
      statusCalls (connectWiFi cfg status localIP st).2 =
        [("Connecting", 0xFFFF00), ("WiFi Fail", 0xFF0000)]) := by
  have hcount := countP_delay_connectWiFi cfg status localIP st
  have hreads : (pollLoop status 0 0).reads = (pollLoop status 0 0).attempts + 1 := by
    simpa using (pollLoop_bound status 30 0 0 rfl).2.2.2
  have hb := (pollLoop_bound status 30 0 0 rfl).2.1
  have hsp := statusCalls_pollLoop status 30 0 0 rfl
  have hle : (connectWiFi cfg status localIP st).2.countP (Event.isDelayOf 500) ≤ 30 := by
    rw [hcount]; simpa using hb
  have hrend := rendersWith_connectWiFi cfg status localIP st 0
  have hprint := printedTexts_connectWiFi cfg status localIP st
  -- the facts that depend only on the status read after the loop
  have hyes : status (pollLoop status 0 0).reads = true →
      (connectWiFi cfg status localIP st).1 = { st with wifiConnected := true } ∧
      renders (connectWiFi cfg status localIP st).2 =
        [("Connecting", 0xFFFF00), ("Ready", 0x00FF00)] ∧
      printedTexts (connectWiFi cfg status localIP st).2 = ["-> ", cfg.server_host] ∧
      statusCalls (connectWiFi cfg status localIP st).2 =
        [("Connecting", 0xFFFF00), ("Ready", 0x00FF00)] := by
    intro hfin
    refine ⟨?_, ?_, ?_, ?_⟩
    · rw [connectWiFi_of_final_connected cfg status localIP st hfin]
    · rw [renders, hrend, if_pos hfin]
    · rw [hprint, if_pos hfin]
    · rw [connectWiFi_of_final_connected cfg status localIP st hfin]
      simp [statusCalls_append, statusCalls_connectHead, statusCalls_showStatus,
        statusCalls_showIP, statusCalls, COLOR_WIFI_CONNECTING, COLOR_READY, hsp]
  have hno : status (pollLoop status 0 0).reads = false →
      (connectWiFi cfg status localIP st).1 = st ∧
      renders (connectWiFi cfg status localIP st).2 =
        [("Connecting", 0xFFFF00), ("WiFi Fail", 0xFF0000)] ∧
      printedTexts (connectWiFi cfg status localIP st).2 = [] ∧
      statusCalls (connectWiFi cfg status localIP st).2 =
        [("Connecting", 0xFFFF00), ("WiFi Fail", 0xFF0000)] := by
    intro hfin
    have hne : ¬ status (pollLoop status 0 0).reads = true := by simp [hfin]
    refine ⟨?_, ?_, ?_, ?_⟩
    · rw [connectWiFi_of_final_disconnected cfg status localIP st hfin]
    · rw [renders, hrend, if_neg hne]
    · rw [hprint, if_neg hne]
    · rw [connectWiFi_of_final_disconnected cfg status localIP st hfin]
      simp [statusCalls_append, statusCalls_connectHead, statusCalls_showStatus,
        statusCalls, COLOR_WIFI_CONNECTING, COLOR_ERROR, hsp]
  refine ⟨?_, ?_, hle, by omega, ?_, ?_, ?_, ?_⟩
  · cases h : status (pollLoop status 0 0).reads with
    | true =>
      rw [connectWiFi_of_final_connected cfg status localIP st h]
      simp [connectHead, showStatus_eq, COLOR_WIFI_CONNECTING, List.append_assoc]
    | false =>
      rw [connectWiFi_of_final_disconnected cfg status localIP st h]
      simp [connectHead, showStatus_eq, COLOR_WIFI_CONNECTING, List.append_assoc]
  · rw [renders, hrend]
    split_ifs <;> rfl
  · intro hall
    have hp := pollLoop_never_connected status (fun i hi => hall i (by omega))
    have hfin : status (pollLoop status 0 0).reads = false := by
      rw [hp]; exact hall 31 (le_refl _)
    obtain ⟨h1, h2, h3, h4⟩ := hno hfin
    refine ⟨h1, by rw [hcount, hp], h2, h3, h4, ?_⟩
    rw [connectWiFi_of_final_disconnected cfg status localIP st hfin]
    exact ⟨connectHead cfg status ++
      [Event.wifiStatus false, Event.serialPrintln "\nWiFi Failed!"],
      by simp [showStatus_eq, COLOR_ERROR, List.append_assoc]⟩
  · intro k hk hfalse htrue hnext
    have hp := pollLoop_first_connected status k hk hfalse htrue
    have hfin : status (pollLoop status 0 0).reads = true := by
      rw [hp]; exact hnext
    obtain ⟨h1, h2, h3, h4⟩ := hyes hfin
    refine ⟨h1, by rw [hcount, hp], h2, h3, h4, ?_⟩
    rw [connectWiFi_of_final_connected cfg status localIP st hfin]
    exact ⟨connectHead cfg status ++
      [ Event.wifiStatus true, Event.serialPrintln "\nWiFi Connected!",
        Event.serialPrint "IP: ", Event.wifiLocalIP, Event.serialPrintln localIP ],
      by simp [showStatus_eq, showIP_eq, COLOR_READY, List.append_assoc]⟩
  · intro hfinal
    rw [hcount, ← hreads] at hfinal
    exact hyes hfinal
  · intro hfinal
    rw [hcount, ← hreads] at hfinal
    exact hno hfinal

/-- C7, at a concrete run: with the status connected from the fourth read on,
`connectWiFi()` waits three times, sets `wifiConnected` and shows "Ready" on
green with the host line. -/
theorem C7_connectWiFi_bounded_polling_witness :
    (connectWiFi exampleConfig statusFromThree "10.0.0.7" boot).1 =
      { boot with wifiConnected := true } ∧
    (connectWiFi exampleConfig statusFromThree "10.0.0.7" boot).2.countP
      (Event.isDelayOf 500) = 3 ∧
    renders (connectWiFi exampleConfig statusFromThree "10.0.0.7" boot).2 =
      [("Connecting", 0xFFFF00), ("Ready", 0x00FF00)] ∧
    printedTexts (connectWiFi exampleConfig statusFromThree "10.0.0.7" boot).2 =
      ["-> ", "192.168.0.10"] :=
  have h := (C7_connectWiFi_bounded_polling exampleConfig statusFromThree "10.0.0.7"
    boot).2.2.2.2.2.1 3 (by decide)
    (fun i hi => by simp [statusFromThree]; omega) (by decide) (by decide)
  ⟨h.1, h.2.1, h.2.2.1, h.2.2.2.1⟩

/-- C7, the claim as stated fails: when the status reads connected at the loop
test (after 0 delays) and not connected at the test after the loop,
`connectWiFi()` performs 0 delays, yet shows "WiFi Fail" on red and leaves
`wifiConnected` false. -/
theorem C7_counterexample_status_reread :
    statusOnlyFirst 0 = true ∧
    (connectWiFi exampleConfig statusOnlyFirst "10.0.0.7" boot).2.countP
      (Event.isDelayOf 500) = 0 ∧
    (connectWiFi exampleConfig statusOnlyFirst "10.0.0.7" boot).1.wifiConnected = false ∧
    renders (connectWiFi exampleConfig statusOnlyFirst "10.0.0.7" boot).2 =
      [("Connecting", 0xFFFF00), ("WiFi Fail", 0xFF0000)] ∧
    statusCalls (connectWiFi exampleConfig statusOnlyFirst "10.0.0.7" boot).2 =
      [("Connecting", 0xFFFF00), ("WiFi Fail", 0xFF0000)] := by
  have hp := pollLoop_first_connected statusOnlyFirst 0 (by decide)
    (fun i hi => absurd hi (Nat.not_lt_zero i)) (by decide)
  have hfin : statusOnlyFirst (pollLoop statusOnlyFirst 0 0).reads = false := by
    rw [hp]; decide
  have hne : ¬ statusOnlyFirst (pollLoop statusOnlyFirst 0 0).reads = true := by
    simp [hfin]
  refine ⟨by decide, ?_, ?_, ?_, ?_⟩
  · rw [countP_delay_connectWiFi, hp]
  · rw [connectWiFi_of_final_disconnected _ _ _ _ hfin]; rfl
  · rw [renders, rendersWith_connectWiFi, if_neg hne]
  · rw [connectWiFi_of_final_disconnected _ _ _ _ hfin]
    simp [statusCalls_append, statusCalls_connectHead, statusCalls_showStatus,
      statusCalls, COLOR_WIFI_CONNECTING, COLOR_ERROR,
      statusCalls_pollLoop statusOnlyFirst 30 0 0 rfl]

/-- C4: `sendAccept()` draws "Sending" on a blue bar (0x0000FF) first, and then
classifies the code returned by its POST: 200 draws "Accepted!" on a cyan bar
(0x00FFFF), any other positive code draws "Error" on a red bar (0xFF0000), a
code `≤ 0` draws "Failed" on a red bar (0xFF0000). The three cases are
exhaustive and mutually exclusive. In each case the status lines shown and the
whole sequence of display operations are exactly those listed, stated on the
`fillRect` colours and `println` texts themselves. -/
theorem C4_sendAccept_classifies_status (cfg : Config) (reply : HttpReply) (st : State) :
    ([Event.call Fn.sendAccept, Event.call (Fn.showStatus "Sending" 0x0000FF)] ++
        statusFrame "Sending" 0x0000FF <+: (sendAccept cfg reply st).2) ∧
    (renders (sendAccept cfg reply st).2).head? = some ("Sending", 0x0000FF) ∧
    (statusCalls (sendAccept cfg reply st).2).head? = some ("Sending", 0x0000FF) ∧
    (reply.httpCode = 200 →
      renders (sendAccept cfg reply st).2 =
        [ ("Sending", 0x0000FF), ("Accepted!", 0x00FFFF), ("Accepted!", 0x00FFFF),
          ("Accepted!", 0x00FFFF), ("Ready", 0x00FF00) ] ∧
      displayOps (sendAccept cfg reply st).2 =
        statusFrame "Sending" 0x0000FF ++ statusFrame "Accepted!" 0x00FFFF ++
          [Event.fillScreen 0x0000] ++ statusFrame "Accepted!" 0x00FFFF ++
          [Event.fillScreen 0x0000] ++ statusFrame "Accepted!" 0x00FFFF ++
          statusFrame "Ready" 0x00FF00 ++ hostFrame cfg.server_host ∧
      statusCalls (sendAccept cfg reply st).2 =
        [ ("Sending", 0x0000FF), ("Accepted!", 0x00FFFF), ("Accepted!", 0x00FFFF),
          ("Accepted!", 0x00FFFF), ("Ready", 0x00FF00) ]) ∧
    (0 < reply.httpCode → reply.httpCode ≠ 200 →
      renders (sendAccept cfg reply st).2 =
        [("Sending", 0x0000FF), ("Error", 0xFF0000), ("Ready", 0x00FF00)] ∧
      displayOps (sendAccept cfg reply st).2 =
        statusFrame "Sending" 0x0000FF ++ statusFrame "Error" 0xFF0000 ++
          statusFrame "Ready" 0x00FF00 ++ hostFrame cfg.server_host ∧
      statusCalls (sendAccept cfg reply st).2 =
        [("Sending", 0x0000FF), ("Error", 0xFF0000), ("Ready", 0x00FF00)]) ∧
    (reply.httpCode ≤ 0 →
      renders (sendAccept cfg reply st).2 =
        [("Sending", 0x0000FF), ("Failed", 0xFF0000), ("Ready", 0x00FF00)] ∧
      displayOps (sendAccept cfg reply st).2 =
        statusFrame "Sending" 0x0000FF ++ statusFrame "Failed" 0xFF0000 ++
          statusFrame "Ready" 0x00FF00 ++ hostFrame cfg.server_host ∧
      statusCalls (sendAccept cfg reply st).2 =
        [("Sending", 0x0000FF), ("Failed", 0xFF0000), ("Ready", 0x00FF00)]) ∧
    (reply.httpCode = 200 ∨ (0 < reply.httpCode ∧ reply.httpCode ≠ 200) ∨
      reply.httpCode ≤ 0) ∧
    ¬ (reply.httpCode = 200 ∧ reply.httpCode ≤ 0) ∧
    ¬ ((0 < reply.httpCode ∧ reply.httpCode ≠ 200) ∧ reply.httpCode ≤ 0) := by
  refine ⟨?_, ?_, ?_, ?_, ?_, ?_, by omega, by omega, by omega⟩
  · exact ⟨[ Event.serialPrintln "Sending accept request...",
        Event.httpBegin
          ("http://" ++ cfg.server_host ++ ":" ++ toString cfg.server_port ++ "/accept"),
        Event.httpAddHeader "Content-Type" "application/json",
        Event.httpSetTimeout 5000,
        Event.httpPOST "" reply.httpCode ] ++ sendOutcome reply ++ sendSettle cfg,
      by simp [sendAccept, sendRequest, showStatus_eq, COLOR_SENDING, List.append_assoc]⟩
  · simp [sendAccept, sendRequest, showStatus, renders, rendersWith, COLOR_SENDING]
  · simp [sendAccept, sendRequest, showStatus, statusCalls, COLOR_SENDING]
  · intro h
    refine ⟨?_, ?_, ?_⟩
    · exact renders_sendAccept_ok cfg reply st h
    · exact displayOps_sendAccept_ok cfg reply st h
    · simp [sendAccept, sendOutcome_ok reply h, sendRequest, sendResponseLog, sendSettle,
        blinkCycle, statusFrame, showStatus, showIP, statusCalls, COLOR_SENDING,
        COLOR_SUCCESS, COLOR_READY]
  · intro h h2
    refine ⟨?_, ?_, ?_⟩
    · exact renders_sendAccept_httpError cfg reply st h h2
    · simp [sendAccept, sendOutcome_httpError reply h h2, sendRequest, sendResponseLog,
        sendSettle, statusFrame, hostFrame, showStatus, showIP, displayOps,
        Event.isDisplay, COLOR_SENDING, COLOR_ERROR, COLOR_READY, BLACK, WHITE]
    · simp [sendAccept, sendOutcome_httpError reply h h2, sendRequest, sendResponseLog,
        sendSettle, showStatus, showIP, statusCalls, COLOR_SENDING, COLOR_ERROR,
        COLOR_READY]
  · intro h
    refine ⟨?_, ?_, ?_⟩
    · exact renders_sendAccept_transportError cfg reply st h
    · simp [sendAccept, sendOutcome_transportError reply h, sendRequest, sendSettle,
        statusFrame, hostFrame, showStatus, showIP, displayOps, Event.isDisplay,
        COLOR_SENDING, COLOR_ERROR, COLOR_READY, BLACK, WHITE]
    · simp [sendAccept, sendOutcome_transportError reply h, sendRequest, sendSettle,
        showStatus, showIP, statusCalls, COLOR_SENDING, COLOR_ERROR, COLOR_READY]

/-- C4, at concrete replies: 200, 500 and the failure code -1. -/
theorem C4_sendAccept_classifies_status_witness :
    renders (sendAccept exampleConfig replyOk boot).2 =
      [ ("Sending", 0x0000FF), ("Accepted!", 0x00FFFF), ("Accepted!", 0x00FFFF),
        ("Accepted!", 0x00FFFF), ("Ready", 0x00FF00) ] ∧
    renders (sendAccept exampleConfig replyServerError boot).2 =
      [("Sending", 0x0000FF), ("Error", 0xFF0000), ("Ready", 0x00FF00)] ∧
    renders (sendAccept exampleConfig replyRefused boot).2 =
      [("Sending", 0x0000FF), ("Failed", 0xFF0000), ("Ready", 0x00FF00)] :=
  ⟨((C4_sendAccept_classifies_status exampleConfig replyOk boot).2.2.2.1 rfl).1,
   ((C4_sendAccept_classifies_status exampleConfig replyServerError boot).2.2.2.2.1
     (by decide) (by decide)).1,
   ((C4_sendAccept_classifies_status exampleConfig replyRefused boot).2.2.2.2.2.1
     (by decide)).1⟩

/-- C5: when the POST returns 200, the trace of `sendAccept()` is the request,
the response log, the initial drawing of "Accepted!" on a cyan bar, exactly two
blink cycles (delay 100 ms, clear the screen to black, delay 100 ms, draw
"Accepted!" on a cyan bar again) and the settle part. It holds four 100 ms
delays in all, none outside the cycles, and its display operations are exactly:
"Sending", "Accepted!", clear, "Accepted!", clear, "Accepted!", "Ready", host
line. For every other code the trace holds no 100 ms delay, no blink cycle, and
shows three status lines only. -/
theorem C5_success_blinks_twice (cfg : Config) (reply : HttpReply) (st : State) :
    (reply.httpCode = 200 →
      (sendAccept cfg reply st).2 =
        sendRequest cfg reply ++ sendResponseLog reply ++
          ([Event.call (Fn.showStatus "Accepted!" 0x00FFFF)] ++
            statusFrame "Accepted!" 0x00FFFF) ++
          (blinkCycle ++ blinkCycle) ++ sendSettle cfg ∧
      (sendAccept cfg reply st).2.countP (Event.isDelayOf 100) = 4 ∧
      (sendRequest cfg reply ++ sendResponseLog reply).countP (Event.isDelayOf 100) = 0 ∧
      (sendSettle cfg).countP (Event.isDelayOf 100) = 0 ∧
      renders (sendAccept cfg reply st).2 =
        [ ("Sending", 0x0000FF), ("Accepted!", 0x00FFFF), ("Accepted!", 0x00FFFF),
          ("Accepted!", 0x00FFFF), ("Ready", 0x00FF00) ] ∧
      displayOps (sendAccept cfg reply st).2 =
        statusFrame "Sending" 0x0000FF ++ statusFrame "Accepted!" 0x00FFFF ++
          [Event.fillScreen 0x0000] ++ statusFrame "Accepted!" 0x00FFFF ++
          [Event.fillScreen 0x0000] ++ statusFrame "Accepted!" 0x00FFFF ++
          statusFrame "Ready" 0x00FF00 ++ hostFrame cfg.server_host) ∧
    (reply.httpCode ≠ 200 →
      (sendAccept cfg reply st).2.countP (Event.isDelayOf 100) = 0 ∧
      ¬ (blinkCycle <:+: (sendAccept cfg reply st).2) ∧
      (renders (sendAccept cfg reply st).2).length = 3 ∧
      ("Accepted!", 0x00FFFF) ∉ renders (sendAccept cfg reply st).2) := by
  constructor
  · intro h
    refine ⟨?_, ?_, ?_, ?_, ?_, ?_⟩
    · simp [sendAccept, sendOutcome_ok reply h, showStatus_eq, COLOR_SUCCESS,
        List.append_assoc]
    · simp [sendAccept, sendOutcome_ok reply h, sendRequest, sendResponseLog, sendSettle,
        blinkCycle, statusFrame, showStatus, showIP, List.countP_cons, Event.isDelayOf]
    · simp [sendRequest, sendResponseLog, showStatus, List.countP_cons, Event.isDelayOf]
    · simp [sendSettle, showStatus, showIP, List.countP_cons, Event.isDelayOf]
    · exact renders_sendAccept_ok cfg reply st h
    · exact displayOps_sendAccept_ok cfg reply st h
  · intro h
    have hcount : (sendAccept cfg reply st).2.countP (Event.isDelayOf 100) = 0 := by
      rcases sendOutcome_cases reply with ⟨h200, _⟩ | ⟨_, ho⟩ | ⟨_, ho⟩
      · exact absurd h200 h
      · simp [sendAccept, ho, sendRequest, sendResponseLog, sendSettle, showStatus,
          showIP, List.countP_cons, Event.isDelayOf]
      · simp [sendAccept, ho, sendRequest, sendSettle, showStatus, showIP,
          List.countP_cons, Event.isDelayOf]
    refine ⟨hcount, ?_, ?_, ?_⟩
    · intro hin
      have hmem : Event.delay 100 ∈ (sendAccept cfg reply st).2 :=
        hin.subset (by simp [blinkCycle])
      rw [List.countP_eq_zero] at hcount
      have := hcount (Event.delay 100) hmem
      simp [Event.isDelayOf] at this
    · by_cases h0 : 0 < reply.httpCode
      · rw [renders_sendAccept_httpError cfg reply st h0 h]; rfl
      · rw [renders_sendAccept_transportError cfg reply st (by omega)]; rfl
    · by_cases h0 : 0 < reply.httpCode
      · rw [renders_sendAccept_httpError cfg reply st h0 h]; simp
      · rw [renders_sendAccept_transportError cfg reply st (by omega)]; simp

/-- C5, at concrete replies: the run with status 200 has four 100 ms delays
and shows "Accepted!" on cyan three times; the run with status 500 has no
100 ms delay. -/
theorem C5_success_blinks_twice_witness :
    (sendAccept exampleConfig replyOk boot).2.countP (Event.isDelayOf 100) = 4 ∧
    renders (sendAccept exampleConfig replyOk boot).2 =
      [ ("Sending", 0x0000FF), ("Accepted!", 0x00FFFF), ("Accepted!", 0x00FFFF),
        ("Accepted!", 0x00FFFF), ("Ready", 0x00FF00) ] ∧
    (sendAccept exampleConfig replyServerError boot).2.countP (Event.isDelayOf 100) = 0 :=
  ⟨((C5_success_blinks_twice exampleConfig replyOk boot).1 rfl).2.1,
   ((C5_success_blinks_twice exampleConfig replyOk boot).1 rfl).2.2.2.2.1,
   ((C5_success_blinks_twice exampleConfig replyServerError boot).2 (by decide)).1⟩

theorem loop_disconnected (cfg : Config) (inp : TickInput) (st : State)
    (hc : inp.status 0 = false) :
    loop cfg inp st =
      ( (connectWiFi cfg (fun n => inp.status (n + 1)) inp.localIP
          (if st.wifiConnected then { st with wifiConnected := false } else st)).1,
        [Event.call Fn.loop, Event.atomUpdate, Event.wifiStatus false] ++
          (if st.wifiConnected then showStatus "WiFi Lost" COLOR_ERROR else []) ++
          (connectWiFi cfg (fun n => inp.status (n + 1)) inp.localIP
            (if st.wifiConnected then { st with wifiConnected := false } else st)).2 ) := by
  simp [loop, hc]

theorem isSendAcceptCall_false_of_mem_connectWiFi (cfg : Config) (status : Nat → Bool)
    (localIP : String) (st : State) (e : Event)
    (he : e ∈ (connectWiFi cfg status localIP st).2) : e.isSendAcceptCall = false := by
  have h := connectWiFi_trace_free cfg status localIP st e he
  simp only [Event.isTickOnly, Bool.or_eq_false_iff] at h
  exact h.1.1.1

theorem call_sendAccept_not_mem_connectWiFi (cfg : Config) (status : Nat → Bool)
    (localIP : String) (st : State) :
    Event.call Fn.sendAccept ∉ (connectWiFi cfg status localIP st).2 := by
  intro he
  have h := isSendAcceptCall_false_of_mem_connectWiFi cfg status localIP st _ he
  simp [Event.isSendAcceptCall] at h

/-- A tick enters `sendAccept()` exactly when the link reads connected, the
button was pressed and the unsigned difference exceeds `DEBOUNCE_MS`. -/
theorem call_sendAccept_mem_loop_iff (cfg : Config) (inp : TickInput) (st : State) :
    Event.call Fn.sendAccept ∈ (loop cfg inp st).2 ↔
      inp.status 0 = true ∧ inp.wasPressed = true ∧
        1000 < sub32 (inp.millis % 4294967296) st.lastButtonPress := by
  cases hc : inp.status 0 with
  | false =>
    rw [loop_disconnected cfg inp st hc]
    have hn := call_sendAccept_not_mem_connectWiFi cfg (fun n => inp.status (n + 1))
      inp.localIP (if st.wifiConnected then { st with wifiConnected := false } else st)
    cases hw : st.wifiConnected <;> simp [hw, showStatus] at hn ⊢ <;> exact hn
  | true =>
    cases hp : inp.wasPressed with
    | false => rw [loop_idle cfg inp st hc hp]; simp
    | true =>
      by_cases hd : 1000 < sub32 (inp.millis % 4294967296) st.lastButtonPress
      · rw [loop_accept cfg inp st hc hp hd]
        simp [hd, call_sendAccept_mem_sendAccept]
      · rw [loop_reject cfg inp st hc hp (by omega)]
        simp [hd]

/-- After a tick, `lastButtonPress` is either what it was, or the tick
entered `sendAccept()` and stored the `millis()` reading. -/
theorem loop_lastButtonPress_cases (cfg : Config) (inp : TickInput) (st : State) :
    (loop cfg inp st).1.lastButtonPress = st.lastButtonPress ∨
    (Event.call Fn.sendAccept ∈ (loop cfg inp st).2 ∧
      (loop cfg inp st).1.lastButtonPress = inp.millis % 4294967296) := by
  cases hc : inp.status 0 with
  | false =>
    left
    rw [loop_disconnected cfg inp st hc, connectWiFi_lastButtonPress]
    cases st.wifiConnected <;> simp
  | true =>
    cases hp : inp.wasPressed with
    | false => left; rw [loop_idle cfg inp st hc hp]
    | true =>
      by_cases hd : 1000 < sub32 (inp.millis % 4294967296) st.lastButtonPress
      · right
        refine ⟨(call_sendAccept_mem_loop_iff cfg inp st).2 ⟨hc, hp, hd⟩, ?_⟩
        rw [loop_accept cfg inp st hc hp hd]
      · left; rw [loop_reject cfg inp st hc hp (by omega)]

theorem runTicks_cons_state (cfg : Config) (inp : TickInput) (rest : List TickInput)
    (st : State) :
    (runTicks cfg (inp :: rest) st).1 = (runTicks cfg rest (loop cfg inp st).1).1 := by
  simp [runTicks]

/-- C10: the debounce test is an unsigned 32-bit comparison. For 32-bit values
of `millis()` and `lastButtonPress`, a press on a connected link enters
`sendAccept()` iff `(now - last) mod 2^32 > 1000`; hence when `now` is `last`
advanced by a true elapsed time `d` modulo 2^32, the press is accepted for
`1000 < d < 2^32` and rejected (state unchanged) for `d ≤ 1000`, also when
the counter wrapped (`now < last`). -/
theorem C10_debounce_is_modular (cfg : Config) (inp : TickInput) (st : State)
    (hc : inp.status 0 = true) (hp : inp.wasPressed = true)
    (hnow : inp.millis < 4294967296) (hlast : st.lastButtonPress < 4294967296) :
    (Event.call Fn.sendAccept ∈ (loop cfg inp st).2 ↔
      1000 < ((inp.millis : Int) - (st.lastButtonPress : Int)) % 4294967296) ∧
    (∀ d : Nat, inp.millis = (st.lastButtonPress + d) % 4294967296 →
      (1000 < d → d < 4294967296 →
        Event.call Fn.sendAccept ∈ (loop cfg inp st).2 ∧
        (loop cfg inp st).1.lastButtonPress = inp.millis) ∧
      (d ≤ 1000 →
        Event.call Fn.sendAccept ∉ (loop cfg inp st).2 ∧ (loop cfg inp st).1 = st)) := by
  have hmod : inp.millis % 4294967296 = inp.millis := Nat.mod_eq_of_lt hnow
  have hiff := call_sendAccept_mem_loop_iff cfg inp st
  rw [hmod] at hiff
  refine ⟨?_, ?_⟩
  · rw [hiff]
    simp only [hc, hp, true_and, sub32, ULONG_MOD]
    omega
  · intro d hd
    constructor
    · intro h1 h2
      have hacc : 1000 < sub32 (inp.millis % 4294967296) st.lastButtonPress := by
        rw [hmod]; simp only [sub32, ULONG_MOD]; omega
      refine ⟨(call_sendAccept_mem_loop_iff cfg inp st).2 ⟨hc, hp, hacc⟩, ?_⟩
      rw [loop_accept cfg inp st hc hp hacc, hmod]
    · intro h1
      have hrej : sub32 (inp.millis % 4294967296) st.lastButtonPress ≤ 1000 := by
        rw [hmod]; simp only [sub32, ULONG_MOD]; omega
      refine ⟨?_, ?_⟩
      · rw [call_sendAccept_mem_loop_iff]
        omega
      · rw [loop_reject cfg inp st hc hp hrej]

/-- C10, at a concrete wrap: the last accepted press was 500 ms before the
counter rolled over and the next press comes 2000 ms later, at reading 1500. -/
theorem C10_debounce_is_modular_witness :
    (1500 : Nat) < 4294966796 ∧
    Event.call Fn.sendAccept ∈
      (loop exampleConfig (pressAt 1500)
        { lastButtonPress := 4294966796, wifiConnected := true }).2 ∧
    (loop exampleConfig (pressAt 1500)
        { lastButtonPress := 4294966796, wifiConnected := true }).1.lastButtonPress = 1500 :=
  ⟨by decide,
   ((C10_debounce_is_modular exampleConfig (pressAt 1500)
      { lastButtonPress := 4294966796, wifiConnected := true } rfl rfl (by decide)
      (by decide)).2 2000 (by decide)).1 (by decide) (by decide)⟩

/-- C3: a press (on a connected link) at time `now` with
`now - lastButtonPress < 1000` and no counter wrap is rejected with no state
change: the state is returned as it was, `sendAccept()` is not entered and no
display operation is issued (the tick only logs "Button pressed"). And on every
tick that enters `sendAccept()`, `lastButtonPress` becomes exactly the
`millis()` reading of that tick. -/
theorem C3_rejected_press_changes_nothing (cfg : Config) (inp : TickInput) (st : State)
    (hc : inp.status 0 = true) (hp : inp.wasPressed = true)
    (hnow : inp.millis < 4294967296) (hle : st.lastButtonPress ≤ inp.millis)
    (hd : inp.millis - st.lastButtonPress < 1000) :
    (loop cfg inp st).1 = st ∧
    (loop cfg inp st).1.lastButtonPress = st.lastButtonPress ∧
    (loop cfg inp st).1.wifiConnected = st.wifiConnected ∧
    Event.call Fn.sendAccept ∉ (loop cfg inp st).2 ∧
    (∀ e ∈ (loop cfg inp st).2, e.isDisplay = false) ∧
    (loop cfg inp st).2 =
      [ Event.call Fn.loop, Event.atomUpdate, Event.wifiStatus true,
        Event.btnWasPressed true, Event.serialPrintln "Button pressed",
        Event.millis inp.millis ] ∧
    (∀ (cfg2 : Config) (inp2 : TickInput) (st2 : State),
      Event.call Fn.sendAccept ∈ (loop cfg2 inp2 st2).2 →
      (loop cfg2 inp2 st2).1.lastButtonPress = inp2.millis % 4294967296) := by
  have hmod : inp.millis % 4294967296 = inp.millis := Nat.mod_eq_of_lt hnow
  have hrej : sub32 (inp.millis % 4294967296) st.lastButtonPress ≤ 1000 := by
    rw [hmod, sub32_of_le _ _ hle hnow]; omega
  have hloop := loop_reject cfg inp st hc hp hrej
  rw [hmod] at hloop
  refine ⟨by rw [hloop], by rw [hloop], by rw [hloop], ?_, ?_, by rw [hloop], ?_⟩
  · rw [hloop]; simp
  · rw [hloop]; simp [Event.isDisplay]
  · intro cfg2 inp2 st2 hmem
    have hiff := (call_sendAccept_mem_loop_iff cfg2 inp2 st2).1 hmem
    rw [loop_accept cfg2 inp2 st2 hiff.1 hiff.2.1 hiff.2.2]

/-- C3, at a concrete run: 600 ms after a press accepted at 5000, a press is
rejected and the state stays as it was. -/
theorem C3_rejected_press_changes_nothing_witness :
    (5600 : Nat) - 5000 < 1000 ∧
    (loop exampleConfig (pressAt 5600)
      { lastButtonPress := 5000, wifiConnected := true }).1 =
      { lastButtonPress := 5000, wifiConnected := true } :=
  ⟨by decide,
   (C3_rejected_press_changes_nothing exampleConfig (pressAt 5600)
      { lastButtonPress := 5000, wifiConnected := true } rfl rfl (by decide) (by decide)
      (by decide)).1⟩

/-- C1 (as amended): a press seen on a connected link at time `now`, with
stored `lastButtonPress = last`, no counter wrap and `now - last > 1000`, is
accepted: `lastButtonPress` is set to `now` and `sendAccept()` is entered
exactly once. Hence, for a sequence of presses whose first timestamp exceeds
the stored `lastButtonPress` by more than 1000 ms and whose inter-arrival
times are all more than 1000 ms, every press of the sequence is accepted. -/
theorem C1_press_accepted_beyond_debounce (cfg : Config) (inps : List TickInput)
    (st : State)
    (hpress : ∀ inp ∈ inps,
      inp.status 0 = true ∧ inp.wasPressed = true ∧ inp.millis < 4294967296)
    (hgaps : List.Chain (fun a b => 1000 < b - a) st.lastButtonPress
      (inps.map TickInput.millis)) :
    ∀ pre inp post, inps = pre ++ inp :: post →
      (loop cfg inp (runTicks cfg pre st).1).1.lastButtonPress = inp.millis ∧
      (loop cfg inp (runTicks cfg pre st).1).2.countP Event.isSendAcceptCall = 1 ∧
      (loop cfg inp (runTicks cfg pre st).1).2 =
        [ Event.call Fn.loop, Event.atomUpdate, Event.wifiStatus true,
          Event.btnWasPressed true, Event.serialPrintln "Button pressed",
          Event.millis inp.millis ] ++
        (sendAccept cfg inp.reply
          { (runTicks cfg pre st).1 with lastButtonPress := inp.millis }).2 := by
  have hstep : ∀ (inp : TickInput) (s : State), inp.status 0 = true →
      inp.wasPressed = true → inp.millis < 4294967296 →
      1000 < inp.millis - s.lastButtonPress →
      loop cfg inp s =
        ( { s with lastButtonPress := inp.millis },
          [ Event.call Fn.loop, Event.atomUpdate, Event.wifiStatus true,
            Event.btnWasPressed true, Event.serialPrintln "Button pressed",
            Event.millis inp.millis ] ++
          (sendAccept cfg inp.reply { s with lastButtonPress := inp.millis }).2 ) := by
    intro inp s hc hp hlt hgap
    have hmod : inp.millis % 4294967296 = inp.millis := Nat.mod_eq_of_lt hlt
    have hacc : 1000 < sub32 (inp.millis % 4294967296) s.lastButtonPress := by
      rw [hmod, sub32_of_le _ _ (by omega) hlt]; exact hgap
    have h := loop_accept cfg inp s hc hp hacc
    rw [hmod] at h
    exact h
  intro pre
  induction pre generalizing inps st with
  | nil =>
    intro inp post hsplit
    subst hsplit
    obtain ⟨hc, hp, hlt⟩ := hpress inp (by simp)
    have hgap : 1000 < inp.millis - st.lastButtonPress := by
      simp only [List.nil_append, List.map_cons, List.chain_cons] at hgaps
      exact hgaps.1
    have h := hstep inp st hc hp hlt hgap
    simp only [runTicks]
    rw [h]
    refine ⟨rfl, ?_, rfl⟩
    simp [List.countP_cons, Event.isSendAcceptCall, countP_call_sendAccept]
  | cons a pre ih =>
    intro inp post hsplit
    subst hsplit
    obtain ⟨hc, hp, hlt⟩ := hpress a (by simp)
    simp only [List.cons_append, List.map_cons, List.chain_cons] at hgaps
    have h := hstep a st hc hp hlt hgaps.1
    rw [runTicks_cons_state, h]
    exact ih (pre ++ inp :: post) { st with lastButtonPress := a.millis }
      (fun x hx => hpress x (by simp at hx ⊢; exact Or.inr hx)) hgaps.2 inp post rfl

/-- C1, at a concrete run from boot: presses at 1001, 2002 and 3003 ms; the
third one is accepted. -/
theorem C1_press_accepted_beyond_debounce_witness :
    (loop exampleConfig (pressAt 3003)
      (runTicks exampleConfig [pressAt 1001, pressAt 2002] boot).1).1.lastButtonPress
        = 3003 ∧
    (loop exampleConfig (pressAt 3003)
      (runTicks exampleConfig [pressAt 1001, pressAt 2002] boot).1).2.countP
        Event.isSendAcceptCall = 1 :=
  have h := C1_press_accepted_beyond_debounce exampleConfig
    [pressAt 1001, pressAt 2002, pressAt 3003] boot
    (by
      intro inp hinp
      simp only [List.mem_cons, List.mem_singleton, List.not_mem_nil, or_false] at hinp
      rcases hinp with h | h | h <;> subst h <;> exact ⟨rfl, rfl, by decide⟩)
    (by simp [pressAt, boot])
    [pressAt 1001, pressAt 2002] (pressAt 3003) [] rfl
  ⟨h.1, h.2.1⟩

/-- C1, the claim as stated fails at `now - last = 1000`: from boot
(`lastButtonPress = 0`) a press on a connected link at `millis() = 1000` is
not accepted; `lastButtonPress` stays 0 and `sendAccept()` is not entered. -/
theorem C1_counterexample_exactly_1000 :
    (pressAt 1000).status 0 = true ∧ (pressAt 1000).wasPressed = true ∧
    1000 ≤ (pressAt 1000).millis - boot.lastButtonPress ∧
    (loop exampleConfig (pressAt 1000) boot).1.lastButtonPress = 0 ∧
    (loop exampleConfig (pressAt 1000) boot).2.countP Event.isSendAcceptCall = 0 ∧
    Event.call Fn.sendAccept ∉ (loop exampleConfig (pressAt 1000) boot).2 := by
  have h := loop_reject exampleConfig (pressAt 1000) boot rfl rfl (by decide)
  refine ⟨rfl, rfl, by decide, ?_, ?_, ?_⟩
  · rw [h]; rfl
  · rw [h]; simp [List.countP_cons, Event.isSendAcceptCall]
  · rw [h]; simp

/-- Presses that all fall within 1000 ms after the stored `lastButtonPress`
leave the state as it was. -/
theorem runTicks_within_window (cfg : Config) :
    ∀ (l : List TickInput) (s : State),
      (∀ inp ∈ l, inp.status 0 = true ∧ inp.wasPressed = true ∧
        inp.millis < 4294967296 ∧ s.lastButtonPress ≤ inp.millis ∧
        inp.millis ≤ s.lastButtonPress + 1000) →
      (runTicks cfg l s).1 = s
  | [], s, _ => by simp [runTicks]
  | a :: l, s, h => by
    obtain ⟨hc, hp, hlt, hle, hwin⟩ := h a (by simp)
    have hrej : sub32 (a.millis % 4294967296) s.lastButtonPress ≤ 1000 := by
      rw [Nat.mod_eq_of_lt hlt, sub32_of_le _ _ hle hlt]; omega
    rw [runTicks_cons_state, loop_reject cfg a s hc hp hrej]
    exact runTicks_within_window cfg l s (fun x hx => h x (by simp [hx]))

/-- C2 (as amended): the debounce window is measured from the stored
`lastButtonPress` (the last accepted press, or 0 after boot), not from the
previous press. For every sequence of presses on a connected link, whatever
their inter-arrival times: the presses that lie within 1000 ms after
`lastButtonPress` are all rejected (no `sendAccept()`, state unchanged), and the
first press more than 1000 ms after it is accepted, also when it is not the
first press of the burst. -/
theorem C2_first_press_beyond_window_accepted (cfg : Config) (st : State)
    (pre : List TickInput) (inp : TickInput)
    (hpre : ∀ x ∈ pre, x.status 0 = true ∧ x.wasPressed = true ∧
      x.millis < 4294967296 ∧ st.lastButtonPress ≤ x.millis ∧
      x.millis ≤ st.lastButtonPress + 1000)
    (hc : inp.status 0 = true) (hp : inp.wasPressed = true)
    (hlt : inp.millis < 4294967296)
    (hbeyond : 1000 < inp.millis - st.lastButtonPress) :
    (∀ pre1 x post1, pre = pre1 ++ x :: post1 →
      (runTicks cfg pre1 st).1 = st ∧
      loop cfg x (runTicks cfg pre1 st).1 =
        (st, [ Event.call Fn.loop, Event.atomUpdate, Event.wifiStatus true,
               Event.btnWasPressed true, Event.serialPrintln "Button pressed",
               Event.millis x.millis ]) ∧
      Event.call Fn.sendAccept ∉ (loop cfg x (runTicks cfg pre1 st).1).2) ∧
    (runTicks cfg pre st).1 = st ∧
    (loop cfg inp (runTicks cfg pre st).1).1.lastButtonPress = inp.millis ∧
    Event.call Fn.sendAccept ∈ (loop cfg inp (runTicks cfg pre st).1).2 ∧
    (loop cfg inp (runTicks cfg pre st).1).2.countP Event.isSendAcceptCall = 1 := by
  have hrun : (runTicks cfg pre st).1 = st := runTicks_within_window cfg pre st hpre
  have hmod : inp.millis % 4294967296 = inp.millis := Nat.mod_eq_of_lt hlt
  have hacc : 1000 < sub32 (inp.millis % 4294967296) st.lastButtonPress := by
    rw [hmod, sub32_of_le _ _ (by omega) hlt]; exact hbeyond
  refine ⟨?_, hrun, ?_, ?_, ?_⟩
  · intro pre1 x post1 hsplit
    have hrun1 : (runTicks cfg pre1 st).1 = st :=
      runTicks_within_window cfg pre1 st
        (fun y hy => hpre y (by rw [hsplit]; simp [hy]))
    obtain ⟨hxc, hxp, hxlt, hxle, hxwin⟩ := hpre x (by rw [hsplit]; simp)
    have hrej : sub32 (x.millis % 4294967296) st.lastButtonPress ≤ 1000 := by
      rw [Nat.mod_eq_of_lt hxlt, sub32_of_le _ _ hxle hxlt]; omega
    have hloop := loop_reject cfg x st hxc hxp hrej
    rw [Nat.mod_eq_of_lt hxlt] at hloop
    rw [hrun1, hloop]
    exact ⟨rfl, rfl, by simp⟩
  · rw [hrun, loop_accept cfg inp st hc hp hacc, hmod]
  · rw [hrun]
    exact (call_sendAccept_mem_loop_iff cfg inp st).2 ⟨hc, hp, hacc⟩
  · rw [hrun, loop_accept cfg inp st hc hp hacc]
    simp [List.countP_cons, Event.isSendAcceptCall, countP_call_sendAccept]

/-- C2, at a concrete run from boot: presses at 300, 600 and 900 ms are
rejected and the press at 1500 ms is accepted. -/
theorem C2_first_press_beyond_window_accepted_witness :
    (runTicks exampleConfig [pressAt 300, pressAt 600, pressAt 900] boot).1 = boot ∧
    (loop exampleConfig (pressAt 1500)
      (runTicks exampleConfig [pressAt 300, pressAt 600, pressAt 900]
        boot).1).1.lastButtonPress = 1500 :=
  have h := C2_first_press_beyond_window_accepted exampleConfig boot
    [pressAt 300, pressAt 600, pressAt 900] (pressAt 1500)
    (by
      intro x hx
      simp only [List.mem_cons, List.mem_singleton, List.not_mem_nil, or_false] at hx
      rcases hx with h | h | h <;> subst h <;>
        exact ⟨rfl, rfl, by decide, by decide, by decide⟩)
    rfl rfl (by decide) (by decide)
  ⟨h.2.1, h.2.2.1⟩

/-- C2, the claim as stated fails: from boot, presses at 600 and 1500 ms are
900 ms apart (one burst); the first is rejected and the second, which is not
the first event of the burst, is accepted (`sendAccept()` is entered and
`lastButtonPress` becomes 1500). -/
theorem C2_counterexample_second_press_accepted :
    (pressAt 600).millis ≤ (pressAt 1500).millis ∧
    (pressAt 1500).millis - (pressAt 600).millis < 1000 ∧
    (loop exampleConfig (pressAt 600) boot).1 = boot ∧
    Event.call Fn.sendAccept ∉ (loop exampleConfig (pressAt 600) boot).2 ∧
    (loop exampleConfig (pressAt 1500)
      (runTicks exampleConfig [pressAt 600] boot).1).1.lastButtonPress = 1500 ∧
    Event.call Fn.sendAccept ∈
      (loop exampleConfig (pressAt 1500) (runTicks exampleConfig [pressAt 600] boot).1).2 := by
  have h1 := loop_reject exampleConfig (pressAt 600) boot rfl rfl (by decide)
  have hrun : (runTicks exampleConfig [pressAt 600] boot).1 = boot := by
    rw [runTicks_cons_state, h1]
    rfl
  have h2 := loop_accept exampleConfig (pressAt 1500) boot rfl rfl (by decide)
  refine ⟨by decide, by decide, ?_, ?_, ?_, ?_⟩
  · rw [h1]
  · rw [h1]; simp
  · rw [hrun, h2]; rfl
  · rw [hrun]
    exact (call_sendAccept_mem_loop_iff _ _ _).2 ⟨rfl, rfl, by decide⟩

/-- The stored `lastButtonPress` never exceeds the reading of the next tick,
when the readings are non-decreasing and the state starts below them. -/
theorem runTicks_lastButtonPress_le (cfg : Config) :
    ∀ (pre : List TickInput) (st : State) (inp : TickInput) (post : List TickInput),
      List.Pairwise (fun a b => a ≤ b) ((pre ++ inp :: post).map TickInput.millis) →
      (∀ x ∈ pre ++ inp :: post,
        st.lastButtonPress ≤ x.millis ∧ x.millis < 4294967296) →
      (runTicks cfg pre st).1.lastButtonPress ≤ inp.millis
  | [], st, inp, post, _, h => by
    simpa [runTicks] using (h inp (by simp)).1
  | a :: pre, st, inp, post, hmono, h => by
    rw [runTicks_cons_state]
    simp only [List.cons_append, List.map_cons, List.pairwise_cons] at hmono
    apply runTicks_lastButtonPress_le cfg pre _ inp post hmono.2
    intro x hx
    have hax : a.millis ≤ x.millis := hmono.1 x.millis (List.mem_map_of_mem _ hx)
    have hx2 := h x (by simp only [List.cons_append, List.mem_cons]; exact Or.inr hx)
    refine ⟨?_, hx2.2⟩
    rcases loop_lastButtonPress_cases cfg a st with hsame | ⟨_, hnew⟩
    · rw [hsame]; exact hx2.1
    · rw [hnew]
      exact le_trans (Nat.mod_le _ _) hax

/-- C9: `lastButtonPress` is non-decreasing and changes only on an accepted
press. For every sequence of ticks from boot whose `millis()` readings are
non-decreasing 32-bit values, the value after each tick is at least the value
before it, and when it differs the tick entered `sendAccept()`; `connectWiFi()`
and `sendAccept()` themselves never modify it. -/
theorem C9_lastButtonPress_monotone (cfg : Config) (inps : List TickInput)
    (hmono : List.Pairwise (fun a b => a ≤ b) (inps.map TickInput.millis))
    (hlt : ∀ inp ∈ inps, inp.millis < 4294967296) :
    (∀ pre inp post, inps = pre ++ inp :: post →
      (runTicks cfg pre boot).1.lastButtonPress ≤
        (loop cfg inp (runTicks cfg pre boot).1).1.lastButtonPress ∧
      ((loop cfg inp (runTicks cfg pre boot).1).1.lastButtonPress ≠
          (runTicks cfg pre boot).1.lastButtonPress →
        Event.call Fn.sendAccept ∈ (loop cfg inp (runTicks cfg pre boot).1).2)) ∧
    (∀ (status : Nat → Bool) (localIP : String) (st : State),
      (connectWiFi cfg status localIP st).1.lastButtonPress = st.lastButtonPress) ∧
    (∀ (reply : HttpReply) (st : State),
      (sendAccept cfg reply st).1.lastButtonPress = st.lastButtonPress) := by
  refine ⟨?_, fun status localIP st => connectWiFi_lastButtonPress cfg status localIP st,
    fun reply st => by rw [sendAccept_state]⟩
  intro pre inp post hsplit
  subst hsplit
  have hle := runTicks_lastButtonPress_le cfg pre boot inp post hmono
    (fun x hx => ⟨Nat.zero_le _, hlt x hx⟩)
  rcases loop_lastButtonPress_cases cfg inp (runTicks cfg pre boot).1 with
    hsame | ⟨hmem, hnew⟩
  · exact ⟨by rw [hsame], fun hne => absurd hsame hne⟩
  · refine ⟨?_, fun _ => hmem⟩
    rw [hnew, Nat.mod_eq_of_lt (hlt inp (by simp))]
    exact hle

/-- C9, at a concrete run from boot: ticks at 1500, 1600 and 4000 ms. -/
theorem C9_lastButtonPress_monotone_witness :
    (runTicks exampleConfig [pressAt 1500, pressAt 1600] boot).1.lastButtonPress ≤
      (loop exampleConfig (pressAt 4000)
        (runTicks exampleConfig [pressAt 1500, pressAt 1600] boot).1).1.lastButtonPress :=
  ((C9_lastButtonPress_monotone exampleConfig [pressAt 1500, pressAt 1600, pressAt 4000]
    (by simp [pressAt])
    (by
      intro inp hinp
      simp only [List.mem_cons, List.mem_singleton, List.not_mem_nil, or_false] at hinp
      rcases hinp with h | h | h <;> subst h <;> decide)).1
    [pressAt 1500, pressAt 1600] (pressAt 4000) [] rfl).1

theorem countP_connectCall_sendAccept (cfg : Config) (reply : HttpReply) (st : State) :
    (sendAccept cfg reply st).2.countP Event.isConnectCall = 0 := by
  rcases sendOutcome_cases reply with ⟨_, ho⟩ | ⟨_, ho⟩ | ⟨_, ho⟩ <;>
    simp [sendAccept, ho, sendRequest, sendResponseLog, sendSettle, blinkCycle, statusFrame,
      showStatus, showIP, List.countP_cons, Event.isConnectCall]

theorem state_clear_wifiConnected (st : State) :
    (if st.wifiConnected then { st with wifiConnected := false } else st) =
      { st with wifiConnected := false } := by
  cases st with
  | mk l w => cases w <;> simp

theorem runTicks_idle (cfg : Config) :
    ∀ (l : List TickInput) (s : State),
      (∀ inp ∈ l, inp.status 0 = true ∧ inp.wasPressed = false) →
      (runTicks cfg l s).1 = s ∧ ∀ e ∈ (runTicks cfg l s).2, e.isDisplay = false
  | [], s, _ => by simp [runTicks]
  | a :: l, s, h => by
    obtain ⟨hc, hp⟩ := h a (by simp)
    have ih := runTicks_idle cfg l s (fun x hx => h x (by simp [hx]))
    simp only [runTicks, loop_idle cfg a s hc hp]
    refine ⟨ih.1, ?_⟩
    intro e he
    simp only [List.mem_append, List.mem_cons, List.mem_singleton, List.not_mem_nil,
      or_false] at he
    rcases he with (h | h | h | h) | h
    · subst h; rfl
    · subst h; rfl
    · subst h; rfl
    · subst h; rfl
    · exact ih.2 e h

/-- C8: on every tick of `loop()`, if the link status reads not connected,
then `connectWiFi()` is entered exactly once on a state whose `wifiConnected`
is false, the button is not read, `sendAccept()` is not entered,
`lastButtonPress` is unchanged, and "WiFi Lost" is drawn on a red bar
(0xFF0000), before the reconnect, exactly when `wifiConnected` was true (stated
on the display operations: the `println` text and the `fillRect` colour). If
the status reads connected, `connectWiFi()` is not entered, `wifiConnected` is
unchanged, and without a press the tick returns the state as it was having
drawn nothing; so any number of such ticks leaves the whole state unchanged. -/
theorem C8_link_check_each_tick (cfg : Config) (inp : TickInput) (st : State) :
    (inp.status 0 = false →
      (loop cfg inp st).2 =
        [Event.call Fn.loop, Event.atomUpdate, Event.wifiStatus false] ++
          (if st.wifiConnected then
            [Event.call (Fn.showStatus "WiFi Lost" 0xFF0000)] ++
              statusFrame "WiFi Lost" 0xFF0000
          else []) ++
          (connectWiFi cfg (fun n => inp.status (n + 1)) inp.localIP
            { st with wifiConnected := false }).2 ∧
      (loop cfg inp st).1 =
        (connectWiFi cfg (fun n => inp.status (n + 1)) inp.localIP
          { st with wifiConnected := false }).1 ∧
      (loop cfg inp st).2.countP Event.isConnectCall = 1 ∧
      (loop cfg inp st).2.countP Event.isButtonRead = 0 ∧
      (loop cfg inp st).2.countP Event.isSendAcceptCall = 0 ∧
      (loop cfg inp st).1.lastButtonPress = st.lastButtonPress ∧
      renders (loop cfg inp st).2 =
        (if st.wifiConnected then [("WiFi Lost", 0xFF0000)] else []) ++
          renders (connectWiFi cfg (fun n => inp.status (n + 1)) inp.localIP
            { st with wifiConnected := false }).2 ∧
      (("WiFi Lost", 0xFF0000) ∈ renders (loop cfg inp st).2 ↔
        st.wifiConnected = true) ∧
      (Event.displayPrintln "WiFi Lost" ∈ (loop cfg inp st).2 ↔
        st.wifiConnected = true) ∧
      (Event.call (Fn.showStatus "WiFi Lost" 0xFF0000) ∈ (loop cfg inp st).2 ↔
        st.wifiConnected = true)) ∧
    (inp.status 0 = true →
      (loop cfg inp st).2.countP Event.isConnectCall = 0 ∧
      (loop cfg inp st).1.wifiConnected = st.wifiConnected ∧
      ("WiFi Lost", 0xFF0000) ∉ renders (loop cfg inp st).2 ∧
      (inp.wasPressed = false →
        loop cfg inp st =
          (st, [ Event.call Fn.loop, Event.atomUpdate, Event.wifiStatus true,
                 Event.btnWasPressed false ]))) ∧
    (∀ inps : List TickInput,
      (∀ x ∈ inps, x.status 0 = true ∧ x.wasPressed = false) →
      (runTicks cfg inps st).1 = st ∧
      ∀ e ∈ (runTicks cfg inps st).2, e.isDisplay = false) := by
  refine ⟨?_, ?_, fun inps h => runTicks_idle cfg inps st h⟩
  · intro hc
    have hloop := loop_disconnected cfg inp st hc
    rw [state_clear_wifiConnected] at hloop
    have hfree : ∀ e ∈ (connectWiFi cfg (fun n => inp.status (n + 1)) inp.localIP
        { st with wifiConnected := false }).2, e.isTickOnly = false :=
      fun e he => connectWiFi_trace_free _ _ _ _ e he
    have hbtn : (connectWiFi cfg (fun n => inp.status (n + 1)) inp.localIP
        { st with wifiConnected := false }).2.countP Event.isButtonRead = 0 := by
      rw [List.countP_eq_zero]
      intro e he
      have := hfree e he
      simp only [Event.isTickOnly, Bool.or_eq_false_iff] at this
      simp [this.1.1.2]
    have hsend : (connectWiFi cfg (fun n => inp.status (n + 1)) inp.localIP
        { st with wifiConnected := false }).2.countP Event.isSendAcceptCall = 0 := by
      rw [List.countP_eq_zero]
      intro e he
      have := hfree e he
      simp only [Event.isTickOnly, Bool.or_eq_false_iff] at this
      simp [this.1.1.1]
    have hlost : Event.call (Fn.showStatus "WiFi Lost" 0xFF0000) ∉
        (connectWiFi cfg (fun n => inp.status (n + 1)) inp.localIP
          { st with wifiConnected := false }).2 := by
      intro he
      have := hfree _ he
      simp [Event.isTickOnly, Event.isStatusCallOf] at this
    have hconn := countP_connectCall_connectWiFi cfg (fun n => inp.status (n + 1))
      inp.localIP { st with wifiConnected := false }
    have hrw := rendersWith_connectWiFi cfg (fun n => inp.status (n + 1)) inp.localIP
      { st with wifiConnected := false }
    have hline := println_mem_connectWiFi cfg (fun n => inp.status (n + 1)) inp.localIP
      { st with wifiConnected := false }
    have hrend : renders (loop cfg inp st).2 =
        (if st.wifiConnected then [("WiFi Lost", 0xFF0000)] else []) ++
          renders (connectWiFi cfg (fun n => inp.status (n + 1)) inp.localIP
            { st with wifiConnected := false }).2 := by
      rw [hloop]
      cases st.wifiConnected <;>
        simp [showStatus, renders, rendersWith, COLOR_ERROR, hrw]
    refine ⟨?_, ?_, ?_, ?_, ?_, ?_, hrend, ?_, ?_, ?_⟩
    · rw [hloop]; simp [showStatus_eq, COLOR_ERROR]
    · rw [hloop]
    · rw [hloop]
      cases st.wifiConnected <;>
        simp [showStatus, List.countP_cons, Event.isConnectCall, hconn]
    · rw [hloop]
      cases st.wifiConnected <;>
        simp [showStatus, List.countP_cons, Event.isButtonRead, hbtn]
    · rw [hloop]
      cases st.wifiConnected <;>
        simp [showStatus, List.countP_cons, Event.isSendAcceptCall, hsend]
    · rw [hloop, connectWiFi_lastButtonPress]
    · have key : ∀ b : Bool, (("WiFi Lost", 0xFF0000) : String × Nat) ∉
          (if b = true then [("Connecting", 0xFFFF00), ("Ready", 0x00FF00)]
            else [("Connecting", 0xFFFF00), ("WiFi Fail", 0xFF0000)]) := by
        intro b; cases b <;> simp
      rw [hrend, renders, hrw]
      cases st.wifiConnected
      · simpa using key _
      · simp
    · rw [hloop]
      cases hw : st.wifiConnected <;> simp [showStatus, hline]
    · rw [hloop]
      cases hw : st.wifiConnected <;> simp [showStatus, COLOR_ERROR, hlost]
  · intro hc
    cases hp : inp.wasPressed with
    | false =>
      rw [loop_idle cfg inp st hc hp]
      simp [List.countP_cons, Event.isConnectCall, renders, rendersWith]
    | true =>
      by_cases hd : 1000 < sub32 (inp.millis % 4294967296) st.lastButtonPress
      · rw [loop_accept cfg inp st hc hp hd]
        refine ⟨?_, ?_, ?_, ?_⟩
        · simp [List.countP_cons, Event.isConnectCall, countP_connectCall_sendAccept]
        · simp [sendAccept_state]
        · have hr : renders
              ([ Event.call Fn.loop, Event.atomUpdate, Event.wifiStatus true,
                 Event.btnWasPressed true, Event.serialPrintln "Button pressed",
                 Event.millis (inp.millis % 4294967296) ] ++
               (sendAccept cfg inp.reply
                 { st with lastButtonPress := inp.millis % 4294967296 }).2) =
              renders (sendAccept cfg inp.reply
                { st with lastButtonPress := inp.millis % 4294967296 }).2 := by
            simp [renders, rendersWith]
          rw [hr]
          by_cases h : inp.reply.httpCode = 200
          · rw [renders_sendAccept_ok cfg inp.reply _ h]; simp
          · by_cases h0 : 0 < inp.reply.httpCode
            · rw [renders_sendAccept_httpError cfg inp.reply _ h0 h]; simp
            · rw [renders_sendAccept_transportError cfg inp.reply _ (by omega)]; simp
        · intro hfalse; simp at hfalse
      · rw [loop_reject cfg inp st hc hp (by omega)]
        simp [List.countP_cons, Event.isConnectCall, renders, rendersWith]

/-- C8, at concrete ticks: with the link down and `wifiConnected` true the tick
draws "WiFi Lost" on red and enters `connectWiFi()` once; two idle ticks on a
connected link leave the state as it was. -/
theorem C8_link_check_each_tick_witness :
    ("WiFi Lost", 0xFF0000) ∈
      renders (loop exampleConfig linkDown
        { lastButtonPress := 5000, wifiConnected := true }).2 ∧
    (loop exampleConfig linkDown
      { lastButtonPress := 5000, wifiConnected := true }).2.countP Event.isConnectCall
        = 1 ∧
    (runTicks exampleConfig [idleAt 10, idleAt 20]
      { lastButtonPress := 5000, wifiConnected := true }).1 =
      { lastButtonPress := 5000, wifiConnected := true } :=
  ⟨((C8_link_check_each_tick exampleConfig linkDown
      { lastButtonPress := 5000, wifiConnected := true }).1 rfl).2.2.2.2.2.2.2.1.2 rfl,
   ((C8_link_check_each_tick exampleConfig linkDown
      { lastButtonPress := 5000, wifiConnected := true }).1 rfl).2.2.1,
   ((C8_link_check_each_tick exampleConfig linkDown
      { lastButtonPress := 5000, wifiConnected := true }).2.2 [idleAt 10, idleAt 20]
      (by
        intro x hx
        simp only [List.mem_cons, List.mem_singleton, List.not_mem_nil, or_false] at hx
        rcases hx with h | h <;> subst h <;> exact ⟨rfl, rfl⟩)).1⟩

end AcceptButton
